import Mathlib

/-! jumpstarter-router: controller and router services

A shallow embedding of `internal/service/controller_service.go` and
`internal/service/router_service.go`, followed by theorems about the
session-establishment (`Listen` / `Dial`), authentication and pairing
(`Stream`) behaviour.

Conventions of the embedding

* A Go `string` (a byte sequence) is a `List Char`; a byte is the `Char` with
  the same code, so ASCII text reads as itself.
* A Go `error` result is an `Option GoError` (`none` is `nil`), a
  `(value, error)` result an `Except GoError value`.
* External collaborators (the Kubernetes client, the JWT parser, request
  metadata, the gRPC streams, `Forward`, `routerEndpoint`, `uuid.NewUUID`,
  `time.Now`) are fields of an environment record or of the directory
  (`Cluster`); the calls that act on the outside (token review, token request,
  status update, `Send`, `Forward`, a cancel function) are recorded, in order,
  in an effect trace. Reads of the directory (`Get`) are not recorded.
* A handler that blocks on `<-ctx.Done()` is modelled in two steps: the handler
  up to that point, and its continuation once the context is done.
* `sync.Map` is an association list with unique keys; each of its methods is
  one atomic step, so a concurrent execution is modelled by the order in which
  the calls perform their registry operations.
-/

namespace Jumpstarter

/-- Go `string`: a sequence of bytes, each byte written as the `Char` of the same code. -/
abbrev GoString := List Char

/-! ## Package `strings` (the functions the services and `net/url` use) -/

namespace strings

/-- Go `strings.HasPrefix`. -/
def HasPrefix (s pre : GoString) : Bool := pre.isPrefixOf s

/-- Go `strings.HasSuffix`. -/
def HasSuffix (s suf : GoString) : Bool := suf.isSuffixOf s

/-- Go `strings.TrimPrefix`. -/
def TrimPrefix (s pre : GoString) : GoString :=
  if HasPrefix s pre then s.drop pre.length else s

/-- Go `strings.Index`: position of the first occurrence of `sep`, `none` for `-1`. -/
def Index : GoString → GoString → Option Nat
  | [], sep => if sep = [] then some 0 else none
  | c :: s, sep =>
    if sep.isPrefixOf (c :: s) then some 0 else (Index s sep).map (· + 1)

/-- Go `strings.LastIndex`: position of the last occurrence of `sep`, `none` for `-1`. -/
def LastIndex : GoString → GoString → Option Nat
  | [], sep => if sep = [] then some 0 else none
  | c :: s, sep =>
    match LastIndex s sep with
    | some i => some (i + 1)
    | none => if sep.isPrefixOf (c :: s) then some 0 else none

/-- Go `strings.Contains`. -/
def Contains (s sub : GoString) : Bool := (Index s sub).isSome

/-- Go `strings.Cut`: the text before and after the first `sep`, and whether `sep` was found. -/
def Cut (s sep : GoString) : GoString × GoString × Bool :=
  match Index s sep with
  | some i => (s.take i, s.drop (i + sep.length), true)
  | none => (s, [], false)

/-- Go `strings.Count` for a separator of one byte. -/
def Count (s : GoString) (c : Char) : Nat := s.count c

/-- Go `strings.ToLower` on ASCII text. -/
def ToLower (s : GoString) : GoString :=
  s.map fun c => if 'A' ≤ c ∧ c ≤ 'Z' then Char.ofNat (c.toNat + 32) else c

end strings

/-! ## Package `net/url` (Go standard library): `Parse` and `URL.String` -/

namespace url

/-- Go `url.Userinfo`. -/
structure Userinfo where
  username : GoString
  password : GoString
  passwordSet : Bool
  deriving DecidableEq, Repr

/-- Go `url.URL`. -/
structure URL where
  Scheme : GoString := []
  Opaque : GoString := []
  User : Option Userinfo := none
  Host : GoString := []
  Path : GoString := []
  RawPath : GoString := []
  OmitHost : Bool := false
  ForceQuery : Bool := false
  RawQuery : GoString := []
  Fragment : GoString := []
  RawFragment : GoString := []
  deriving DecidableEq, Repr

/-- The `encoding` modes of `net/url`. -/
inductive encoding where
  | encodePath
  | encodePathSegment
  | encodeHost
  | encodeZone
  | encodeUserPassword
  | encodeQueryComponent
  | encodeFragment
  deriving DecidableEq, Repr

open encoding

/-- Go `ishex`. -/
def ishex (c : Char) : Bool :=
  ('0' ≤ c && c ≤ '9') || ('a' ≤ c && c ≤ 'f') || ('A' ≤ c && c ≤ 'F')

/-- Go `unhex`. -/
def unhex (c : Char) : Nat :=
  if '0' ≤ c ∧ c ≤ '9' then c.toNat - '0'.toNat
  else if 'a' ≤ c ∧ c ≤ 'f' then c.toNat - 'a'.toNat + 10
  else if 'A' ≤ c ∧ c ≤ 'F' then c.toNat - 'A'.toNat + 10
  else 0

/-- The table `upperhex = "0123456789ABCDEF"`, indexed by a nibble. -/
def upperhex (n : Nat) : Char :=
  "0123456789ABCDEF".toList.getD (n % 16) '0'

/-- Go `shouldEscape`: whether byte `c` must be percent-escaped in the given part of a URL. -/
def shouldEscape (c : Char) (mode : encoding) : Bool :=
  if ('a' ≤ c && c ≤ 'z') || ('A' ≤ c && c ≤ 'Z') || ('0' ≤ c && c ≤ '9') then false
  else if (mode = encodeHost || mode = encodeZone) && c ∈ "!$&'()*+,;=:[]<>\"".toList then false
  else if c ∈ "-_.~".toList then false
  else if c ∈ "$&+,/:;=?@".toList then
    match mode with
    | encodePath => c = '?'
    | encodePathSegment => c = '/' || c = ';' || c = ',' || c = '?'
    | encodeUserPassword => c = '@' || c = '/' || c = '?' || c = ':'
    | encodeQueryComponent => true
    | encodeFragment => false
    | _ => true
  else if mode = encodeFragment && c ∈ "!()*".toList then false
  else true

/-- Go `escape`. -/
def escape (s : GoString) (mode : encoding) : GoString :=
  s.flatMap fun c =>
    if shouldEscape c mode then
      if c = ' ' ∧ mode = encodeQueryComponent then ['+']
      else ['%', upperhex (c.toNat / 16), upperhex (c.toNat % 16)]
    else [c]

/-- Go `unescape`; `none` is an `EscapeError` or `InvalidHostError`. -/
def unescape (mode : encoding) : GoString → Option GoString
  | [] => some []
  | c :: s =>
    if c = '%' then
      match s with
      | a :: b :: rest =>
        if !ishex a || !ishex b then none
        else if mode = encodeHost && unhex a < 8 && [c, a, b] ≠ "%25".toList then none
        else if mode = encodeZone && [c, a, b] ≠ "%25".toList
            && Char.ofNat (unhex a * 16 + unhex b) ≠ ' '
            && shouldEscape (Char.ofNat (unhex a * 16 + unhex b)) encodeHost then none
        else (unescape mode rest).map (Char.ofNat (unhex a * 16 + unhex b) :: ·)
      | _ => none
    else if c = '+' then
      (unescape mode s).map ((if mode = encodeQueryComponent then ' ' else '+') :: ·)
    else if (mode = encodeHost || mode = encodeZone) && c.toNat < 0x80
        && shouldEscape c encodeHost then none
    else (unescape mode s).map (c :: ·)

/-- Go `validEncoded`. -/
def validEncoded (s : GoString) (mode : encoding) : Bool :=
  s.all fun c => c ∈ "!$&'()*+,;=:@[]%".toList || !shouldEscape c mode

/-- Go `stringContainsCTLByte`. -/
def stringContainsCTLByte (s : GoString) : Bool :=
  s.any fun c => c.toNat < 0x20 || c.toNat = 0x7f

/-- The loop of Go `getScheme` from position `i`, with `pre` the bytes already read
(in reverse); `none` is the error "missing protocol scheme". -/
def getSchemeLoop (rawURL : GoString) : GoString → GoString → Option (GoString × GoString)
  | _, [] => some ([], rawURL)
  | pre, c :: rest =>
    if ('a' ≤ c && c ≤ 'z') || ('A' ≤ c && c ≤ 'Z') then getSchemeLoop rawURL (c :: pre) rest
    else if ('0' ≤ c && c ≤ '9') || c = '+' || c = '-' || c = '.' then
      if pre = [] then some ([], rawURL) else getSchemeLoop rawURL (c :: pre) rest
    else if c = ':' then
      if pre = [] then none else some (pre.reverse, rest)
    else some ([], rawURL)

/-- Go `getScheme`: splits `scheme:rest`. -/
def getScheme (rawURL : GoString) : Option (GoString × GoString) :=
  getSchemeLoop rawURL [] rawURL

/-- Go `validOptionalPort`. -/
def validOptionalPort : GoString → Bool
  | [] => true
  | c :: digits => c = ':' && digits.all fun b => '0' ≤ b && b ≤ '9'

/-- Go `validUserinfo`. -/
def validUserinfo (s : GoString) : Bool :=
  s.all fun r =>
    ('A' ≤ r && r ≤ 'Z') || ('a' ≤ r && r ≤ 'z') || ('0' ≤ r && r ≤ '9')
      || r ∈ "-._:~!$&'()*+,;=%@".toList

/-- Go `parseHost`. -/
def parseHost (host : GoString) : Option GoString :=
  if strings.HasPrefix host ['['] then
    match strings.LastIndex host [']'] with
    | none => none
    | some i =>
      if !validOptionalPort (host.drop (i + 1)) then none
      else
        match strings.Index (host.take i) "%25".toList with
        | some zone =>
          (unescape encodeHost (host.take zone)).bind fun host1 =>
          (unescape encodeZone ((host.take i).drop zone)).bind fun host2 =>
          (unescape encodeHost (host.drop i)).bind fun host3 =>
          some (host1 ++ host2 ++ host3)
        | none => unescape encodeHost host
  else
    match strings.LastIndex host [':'] with
    | some i =>
      if !validOptionalPort (host.drop i) then none else unescape encodeHost host
    | none => unescape encodeHost host

/-- Go `parseAuthority`: `[userinfo@]host`. -/
def parseAuthority (authority : GoString) : Option (Option Userinfo × GoString) :=
  match strings.LastIndex authority ['@'] with
  | none => (parseHost authority).map fun host => (none, host)
  | some i =>
    (parseHost (authority.drop (i + 1))).bind fun host =>
    let userinfo := authority.take i
    if !validUserinfo userinfo then none
    else if !strings.Contains userinfo [':'] then
      (unescape encodeUserPassword userinfo).map fun u =>
        (some { username := u, password := [], passwordSet := false }, host)
    else
      let (username, password, _) := strings.Cut userinfo [':']
      (unescape encodeUserPassword username).bind fun u =>
      (unescape encodeUserPassword password).map fun p =>
        (some { username := u, password := p, passwordSet := true }, host)

/-- Go `(*URL).setPath`. -/
def setPath (u : URL) (p : GoString) : Option URL :=
  (unescape encodePath p).map fun path =>
    { u with Path := path, RawPath := if p = escape path encodePath then [] else p }

/-- Go `(*URL).setFragment`. -/
def setFragment (u : URL) (f : GoString) : Option URL :=
  (unescape encodeFragment f).map fun frag =>
    { u with Fragment := frag, RawFragment := if f = escape frag encodeFragment then [] else f }

/-- Go `parse(rawURL, viaRequest = false)`: a URL without its fragment. -/
def parse (rawURL : GoString) : Option URL :=
  if stringContainsCTLByte rawURL then none
  else if rawURL = ['*'] then some { Path := ['*'] }
  else
    (getScheme rawURL).bind fun (scheme, rest0) =>
    let scheme := strings.ToLower scheme
    let forceQuery := strings.HasSuffix rest0 ['?'] && strings.Count rest0 '?' = 1
    let rest1 := if forceQuery then rest0.take (rest0.length - 1) else (strings.Cut rest0 ['?']).1
    let rawQuery := if forceQuery then [] else (strings.Cut rest0 ['?']).2.1
    let u : URL := { Scheme := scheme, ForceQuery := forceQuery, RawQuery := rawQuery }
    if !strings.HasPrefix rest1 ['/'] && scheme ≠ [] then some { u with Opaque := rest1 }
    else if !strings.HasPrefix rest1 ['/']
        && strings.Contains (strings.Cut rest1 ['/']).1 [':'] then none
    else if (scheme ≠ [] || !strings.HasPrefix rest1 "///".toList)
        && strings.HasPrefix rest1 "//".toList then
      let auth0 := rest1.drop 2
      let authority := match strings.Index auth0 ['/'] with
        | some i => auth0.take i
        | none => auth0
      let rest2 := match strings.Index auth0 ['/'] with
        | some i => auth0.drop i
        | none => []
      (parseAuthority authority).bind fun (user, host) =>
        setPath { u with User := user, Host := host } rest2
    else if scheme ≠ [] && strings.HasPrefix rest1 ['/'] then
      setPath { u with OmitHost := true } rest1
    else setPath u rest1

/-- Go `url.Parse`; `none` is a parse error. -/
def Parse (rawURL : GoString) : Option URL :=
  let (u, frag, _) := strings.Cut rawURL ['#']
  (parse u).bind fun url => if frag = [] then some url else setFragment url frag

/-- Go `(*URL).EscapedPath`. -/
def URL.EscapedPath (u : URL) : GoString :=
  if u.RawPath ≠ [] ∧ validEncoded u.RawPath encodePath
      ∧ unescape encodePath u.RawPath = some u.Path then u.RawPath
  else if u.Path = ['*'] then ['*']
  else escape u.Path encodePath

/-- Go `(*URL).EscapedFragment`. -/
def URL.EscapedFragment (u : URL) : GoString :=
  if u.RawFragment ≠ [] ∧ validEncoded u.RawFragment encodeFragment
      ∧ unescape encodeFragment u.RawFragment = some u.Fragment then u.RawFragment
  else escape u.Fragment encodeFragment

/-- Go `(*Userinfo).String`. -/
def Userinfo.String (u : Userinfo) : GoString :=
  escape u.username encodeUserPassword
    ++ (if u.passwordSet then ':' :: escape u.password encodeUserPassword else [])

/-- Go `(*URL).String`. -/
def URL.String (u : URL) : GoString :=
  let scheme := if u.Scheme ≠ [] then u.Scheme ++ [':'] else []
  let body :=
    if u.Opaque ≠ [] then u.Opaque
    else
      let auth :=
        if u.Scheme ≠ [] ∨ u.Host ≠ [] ∨ u.User.isSome then
          if u.OmitHost ∧ u.Host = [] ∧ u.User.isNone then []
          else
            (if u.Host ≠ [] ∨ u.Path ≠ [] ∨ u.User.isSome then "//".toList else [])
              ++ (match u.User with
                  | some ui => ui.String ++ ['@']
                  | none => [])
              ++ (if u.Host ≠ [] then escape u.Host encodeHost else [])
        else []
      let path := u.EscapedPath
      let slash := if path ≠ [] ∧ path.head? ≠ some '/' ∧ u.Host ≠ [] then ['/'] else []
      let dot :=
        if scheme ++ auth ++ slash = []
            ∧ strings.Contains (strings.Cut path ['/']).1 [':'] then "./".toList else []
      auth ++ slash ++ dot ++ path
  let query := if u.ForceQuery ∨ u.RawQuery ≠ [] then '?' :: u.RawQuery else []
  let fragment := if u.Fragment ≠ [] then '#' :: u.EscapedFragment else []
  scheme ++ body ++ query ++ fragment

end url

/-! ## Shared vocabulary of the two services -/

/-- The status codes of `google.golang.org/grpc/codes`. -/
inductive Code where
  | OK | Canceled | Unknown | InvalidArgument | DeadlineExceeded | NotFound
  | AlreadyExists | PermissionDenied | ResourceExhausted | FailedPrecondition
  | Aborted | OutOfRange | Unimplemented | Internal | Unavailable | DataLoss
  | Unauthenticated
  deriving DecidableEq, Repr

/-- A Go `error` value: a gRPC status (an error that is not a status has code `Unknown`). -/
structure GoError where
  code : Code
  msg : String
  deriving DecidableEq, Repr

deriving instance DecidableEq for Except

/-- Go `status.Errorf(code, msg)`. -/
def Errorf (code : Code) (msg : String) : GoError := { code := code, msg := msg }

/-- A `context.Context` of an incoming request, identified by a number. -/
abbrev Context := Nat

/-- A `context.CancelFunc`, identified by a number. -/
abbrev CancelFunc := Nat

/-- A server-side gRPC stream handle, identified by a number. -/
abbrev StreamHandle := Nat

/-- How far a handler got: it returned an error value, or it is blocked on `<-ctx.Done()`. -/
inductive Return where
  | returned (err : Option GoError)
  | blocked
  deriving DecidableEq, Repr

/-- Reference: config/default/kustomization.yaml -/
def nameSpace : GoString := "jumpstarter-router-system".toList

/-- Prefix of the names of the deployed resources. -/
def namePrefix : GoString := "jumpstarter-router-".toList

/-- Go `types.NamespacedName`. -/
structure NamespacedName where
  Namespace : GoString
  Name : GoString
  deriving DecidableEq, Repr

/-- Go `authv1.TokenReviewSpec`. -/
structure TokenReviewSpec where
  Token : GoString
  Audiences : List GoString
  deriving DecidableEq, Repr

/-- Go `authv1.TokenReviewStatus`, with `User.Username` flattened. -/
structure TokenReviewStatus where
  Authenticated : Bool
  Username : GoString
  Audiences : List GoString
  deriving DecidableEq, Repr

/-- Go `authv1.TokenRequest`: the object meta and the spec. -/
structure TokenRequest where
  Namespace : GoString
  Name : GoString
  Audiences : List GoString
  ExpirationSeconds : Int
  deriving DecidableEq, Repr

/-- Go `pb.ListenResponse`. -/
structure ListenResponse where
  RouterEndpoint : GoString
  RouterToken : GoString
  deriving DecidableEq, Repr

/-- Go `pb.DialResponse`. -/
structure DialResponse where
  RouterEndpoint : GoString
  RouterToken : GoString
  deriving DecidableEq, Repr

/-- Go `metav1.Condition`. -/
structure Condition where
  Type' : String
  Status : String
  ObservedGeneration : Int
  LastTransitionTime : Nat
  Reason : String
  Message : GoString
  deriving DecidableEq, Repr

/-- Modelled from the spec: `v1alpha1.Device` (declared in api/v1alpha1, not among the
sources), a device `{uuid, labels}` of an exporter status. -/
structure Device where
  Uuid : GoString
  Labels : List (GoString × GoString)
  deriving DecidableEq, Repr

/-- Modelled from the spec: `v1alpha1.ExporterStatus` (declared in api/v1alpha1), the
conditions and devices that `Register` and `Unregister` write. -/
structure ExporterStatus where
  Conditions : List Condition
  Devices : List Device
  deriving DecidableEq, Repr

/-- Modelled from the spec: `v1alpha1.Exporter` (declared in api/v1alpha1), a principal
`(namespace, name)` with its credential references (`Spec.Credentials`), its generation
and its status. -/
structure Exporter where
  Namespace : GoString
  Name : GoString
  Generation : Int
  Credentials : List NamespacedName
  Status : ExporterStatus
  deriving DecidableEq, Repr

/-- Modelled from the spec: `v1alpha1.Identity` (declared in api/v1alpha1), a client
principal `(namespace, name)` with its credential references (`Spec.Credentials`). -/
structure Identity where
  Namespace : GoString
  Name : GoString
  Credentials : List NamespacedName
  deriving DecidableEq, Repr

/-- Go `corev1.Secret`: the `Data` map from key to bytes. -/
structure Secret where
  Data : List (GoString × GoString)
  deriving DecidableEq, Repr

/-- Go `corev1.ServiceAccount`: its object meta. -/
structure ServiceAccount where
  Namespace : GoString
  Name : GoString
  deriving DecidableEq, Repr

/-- An effect of a handler on the world outside it, in the order performed. -/
inductive Effect where
  /-- The call `s.Client.Create(ctx, &tokenReview)`: the token-review oracle is consulted. -/
  | tokenReview (spec : TokenReviewSpec)
  /-- The call `Forward(ctx, a, b)` on two stream handles. -/
  | forward (a b : StreamHandle)
  /-- The call of a `context.CancelFunc`. -/
  | cancel (c : CancelFunc)
  /-- The call `s.Status().Update(ctx, exporter)`. -/
  | statusUpdate (exporter : Exporter)
  /-- The call `s.SubResource("token").Create(ctx, &tokenholder, &tokenRequest)`. -/
  | tokenRequest (req : TokenRequest)
  /-- The call `stream.Send(msg)` on a `Listen` stream handle. -/
  | send (stream : StreamHandle) (msg : ListenResponse)
  deriving DecidableEq, Repr

/-! ## `sync.Map` -/

/-- Go `sync.Map` with string keys: an association list, at most one entry per key. -/
abbrev Registry (V : Type) := List (GoString × V)

/-- Go `(*sync.Map).Load`. -/
def Registry.Load {V : Type} (m : Registry V) (key : GoString) : Option V :=
  m.lookup key

/-- Go `(*sync.Map).LoadOrStore`: the existing value and `loaded = true`, or else stores
and returns the given value with `loaded = false`. -/
def Registry.LoadOrStore {V : Type} (m : Registry V) (key : GoString) (value : V) :
    V × Bool × Registry V :=
  match m.lookup key with
  | some actual => (actual, true, m)
  | none => (value, false, m ++ [(key, value)])

/-- Go `(*sync.Map).Delete`. -/
def Registry.Delete {V : Type} (m : Registry V) (key : GoString) : Registry V :=
  m.filter fun kv => kv.1 ≠ key

/-! ## router_service.go -/

/-- The claims of a JWT parsed without verification: `GetAudience()` returns the
audience list, or fails (`none`). -/
structure Claims where
  GetAudience : Option (List GoString)
  deriving DecidableEq, Repr

/-- The collaborators of `RouterService`. -/
structure RouterEnv where
  /-- The function `routerEndpoint()`: the advertised `host:port` of the router. -/
  routerEndpoint : GoString
  /-- The function `BearerTokenFromContext(ctx)`. -/
  BearerTokenFromContext : Context → Except GoError GoString
  /-- The call `jwt.NewParser().ParseUnverified(token, &jwt.RegisteredClaims{})`; `none` is an error. -/
  ParseUnverified : GoString → Option Claims
  /-- The result of `s.Client.Create(ctx, &tokenReview)`: the review status, or `none` for an error. -/
  CreateTokenReview : TokenReviewSpec → Option TokenReviewStatus
  /-- The value that `Forward(ctx, a, b)` returns. -/
  Forward : StreamHandle → StreamHandle → Option GoError

/-- Go `streamContext`. -/
structure streamContext where
  cancel : CancelFunc
  stream : StreamHandle
  deriving DecidableEq, Repr

/-- The loop of `authenticate` over the audiences: the local audiences, parsed. -/
def matchedAudiences (endpoint : GoString) : List GoString → List url.URL
  | [] => []
  | audience :: rest =>
    match url.Parse audience with
    | none => matchedAudiences endpoint rest
    | some aud =>
      if aud.Scheme ≠ "https".toList ∨ aud.Host ≠ endpoint
          ∨ ¬ strings.HasPrefix aud.Path "/stream/".toList then
        matchedAudiences endpoint rest
      else aud :: matchedAudiences endpoint rest

/-- The user name that the token review must report. -/
def tokenholderUsername : GoString :=
  "system:serviceaccount:".toList ++ nameSpace ++ ":".toList ++ namePrefix ++ "tokenholder".toList

/-- Go `(*RouterService).authenticate`: the stream name or an error, and the effects. -/
def authenticate (env : RouterEnv) (ctx : Context) : Except GoError GoString × List Effect :=
  match env.BearerTokenFromContext ctx with
  | .error err => (.error err, [])
  | .ok token =>
    match env.ParseUnverified token with
    | none => (.error (Errorf .InvalidArgument "invalid jwt token"), [])
    | some parsed =>
      match parsed.GetAudience with
      | none => (.error (Errorf .InvalidArgument "invalid jwt audience"), [])
      | some audiences =>
        match matchedAudiences env.routerEndpoint audiences with
        | [audience] =>
          let tokenReview : TokenReviewSpec :=
            { Token := token, Audiences := [audience.String] }
          match env.CreateTokenReview tokenReview with
          | none =>
            (.error (Errorf .Unauthenticated "failed to create token review"),
              [.tokenReview tokenReview])
          | some status =>
            if !status.Authenticated ∨ status.Username ≠ tokenholderUsername
                ∨ ¬ status.Audiences.contains audience.String then
              (.error (Errorf .Unauthenticated "unauthenticated jwt token"),
                [.tokenReview tokenReview])
            else
              (.ok (strings.TrimPrefix audience.Path "/stream/".toList),
                [.tokenReview tokenReview])
        | _ => (.error (Errorf .InvalidArgument "invalid number of local jwt audience"), [])

/-- A call of `Stream`: the stream handle, its context, and the cancel function that
`context.WithCancel(ctx)` returns to the call. -/
structure StreamCall where
  stream : StreamHandle
  ctx : Context
  cancel : CancelFunc
  deriving DecidableEq, Repr

/-- What a call of `Stream` has done when it returns or blocks. -/
structure StreamOutcome where
  pending : Registry streamContext
  ret : Return
  trace : List Effect
  deriving DecidableEq, Repr

/-- Go `(*RouterService).Stream`, up to its return or to `<-ctx.Done()`. On the
forwarding path the deferred calls run after `Forward` returns, last deferred first:
the parked entry's `cancel`, then the call's own `cancel`. -/
def Stream (env : RouterEnv) (pending : Registry streamContext) (call : StreamCall) :
    StreamOutcome :=
  match authenticate env call.ctx with
  | (.error err, effects) =>
    { pending := pending, ret := .returned (some err), trace := effects }
  | (.ok streamName, effects) =>
    let sctx : streamContext := { cancel := call.cancel, stream := call.stream }
    match pending.LoadOrStore streamName sctx with
    | (actual, true, pending1) =>
      { pending := pending1
        ret := .returned (env.Forward call.stream actual.stream)
        trace := effects ++ [.forward call.stream actual.stream, .cancel actual.cancel,
          .cancel call.cancel] }
    | (_, false, pending1) =>
      { pending := pending1, ret := .blocked, trace := effects }

/-- Go `(*RouterService).Stream` on the waiting path, from the moment `<-ctx.Done()`
unblocks: `return nil`, then the deferred `cancel()`. -/
def StreamDone (pending : Registry streamContext) (call : StreamCall) : StreamOutcome :=
  { pending := pending, ret := .returned none, trace := [.cancel call.cancel] }

/-! ## controller_service.go -/

/-- The directory behind `client.Client`: what `Get` returns for each kind and name
(`none` when `Get` fails). -/
structure Cluster where
  exporters : NamespacedName → Option Exporter
  identities : NamespacedName → Option Identity
  secrets : NamespacedName → Option Secret
  serviceAccounts : NamespacedName → Option ServiceAccount

/-- Go `bearerToken`. -/
structure bearerToken where
  Namespace : GoString
  Name : GoString
  Token : GoString
  deriving DecidableEq, Repr

/-- Go `pb.DeviceReport`: the fields that `Register` reads. -/
structure DeviceReport where
  Uuid : GoString
  Labels : List (GoString × GoString)
  deriving DecidableEq, Repr

/-- Go `pb.RegisterRequest`. -/
structure RegisterRequest where
  Reports : List DeviceReport
  deriving DecidableEq, Repr

/-- Go `pb.UnregisterRequest`. -/
structure UnregisterRequest where
  Reason : GoString
  deriving DecidableEq, Repr

/-- Go `pb.DialRequest`. -/
structure DialRequest where
  Uuid : GoString
  deriving DecidableEq, Repr

/-- The collaborators of `ControllerService`. -/
structure ControllerEnv where
  /-- The function `routerEndpoint()`: the advertised `host:port` of the router. -/
  routerEndpoint : GoString
  /-- The function `BearerTokenFromContext(ctx)`. -/
  BearerTokenFromContext : Context → Except GoError GoString
  /-- The call `base64.StdEncoding.DecodeString(encoded)`; `none` is an error. -/
  DecodeString : GoString → Option GoString
  /-- The call `json.Unmarshal(decoded, &token)`; `none` is an error. -/
  Unmarshal : GoString → Option bearerToken
  /-- The value of `time.Now()`. -/
  now : Nat
  /-- The error text that `s.Status().Update(ctx, exporter)` returns, `none` for `nil`. -/
  StatusUpdate : Exporter → Option String
  /-- The value of `uuid.NewUUID()`. -/
  NewUUID : GoString
  /-- The result of `s.SubResource("token").Create(ctx, &tokenholder, &tokenRequest)`:
  the issued `Status.Token`, or the error text. -/
  CreateToken : ServiceAccount → TokenRequest → Except String GoString
  /-- The value that `Send(response)` returns on a `Listen` stream handle. -/
  Send : StreamHandle → ListenResponse → Option GoError

/-- Go `listenContext`. -/
structure listenContext where
  cancel : CancelFunc
  stream : StreamHandle
  deriving DecidableEq, Repr

/-- Go `(*ControllerService).authenticatePre`. -/
def authenticatePre (env : ControllerEnv) (ctx : Context) : Except GoError bearerToken :=
  match env.BearerTokenFromContext ctx with
  | .error err => .error err
  | .ok encoded =>
    match env.DecodeString encoded with
    | none => .error (Errorf .InvalidArgument "failed to decode token")
    | some decoded =>
      match env.Unmarshal decoded with
      | none => .error (Errorf .InvalidArgument "failed to unmarshal token")
      | some token => .ok token

/-- The loop `for _, ref := range ….Spec.Credentials` of `authenticateExporter` and of
`authenticateIdentity`: `ok true` when a secret's `token` equals the presented one,
`ok false` when the loop ends without a match, an error when a secret cannot be read. -/
def matchCredentials (cluster : Cluster) (token : GoString) :
    List NamespacedName → Except GoError Bool
  | [] => .ok false
  | ref :: rest =>
    match cluster.secrets { Namespace := ref.Namespace, Name := ref.Name } with
    | none => .error (Errorf .Internal "unable to get secret resource")
    | some secret =>
      match secret.Data.lookup "token".toList with
      | some reference =>
        if reference = token then .ok true else matchCredentials cluster token rest
      | none => matchCredentials cluster token rest

/-- Go `(*ControllerService).authenticateIdentity`. -/
def authenticateIdentity (env : ControllerEnv) (cluster : Cluster) (ctx : Context) :
    Except GoError Identity :=
  match authenticatePre env ctx with
  | .error err => .error err
  | .ok token =>
    match cluster.identities { Namespace := token.Namespace, Name := token.Name } with
    | none => .error (Errorf .Internal "unable to get identity resource")
    | some identity =>
      match matchCredentials cluster token.Token identity.Credentials with
      | .error err => .error err
      | .ok true => .ok identity
      | .ok false => .error (Errorf .Unauthenticated "no matching credential")

/-- Go `(*ControllerService).authenticateExporter`. -/
def authenticateExporter (env : ControllerEnv) (cluster : Cluster) (ctx : Context) :
    Except GoError Exporter :=
  match authenticatePre env ctx with
  | .error err => .error err
  | .ok token =>
    match cluster.exporters { Namespace := token.Namespace, Name := token.Name } with
    | none => .error (Errorf .Internal "unable to get exporter resource")
    | some exporter =>
      match matchCredentials cluster token.Token exporter.Credentials with
      | .error err => .error err
      | .ok true => .ok exporter
      | .ok false => .error (Errorf .Unauthenticated "no matching credential")

/-- What a unary call that may write the directory has done when it returns. -/
structure WriteOutcome where
  cluster : Cluster
  err : Option GoError
  trace : List Effect

/-- The directory after a successful `s.Status().Update(ctx, exporter)`. -/
def Cluster.updateStatus (cluster : Cluster) (exporter : Exporter) : Cluster :=
  { cluster with
    exporters := fun key =>
      if key = { Namespace := exporter.Namespace, Name := exporter.Name } then
        (cluster.exporters key).map fun stored => { stored with Status := exporter.Status }
      else cluster.exporters key }

/-- The tail of `Register` and `Unregister`: `s.Status().Update(ctx, exporter)` and the
return that follows it. -/
def statusUpdate (env : ControllerEnv) (cluster : Cluster) (exporter : Exporter) :
    WriteOutcome :=
  match env.StatusUpdate exporter with
  | some err =>
    { cluster := cluster
      err := some (Errorf .Internal ("unable to update exporter status: " ++ err))
      trace := [.statusUpdate exporter] }
  | none =>
    { cluster := cluster.updateStatus exporter, err := none, trace := [.statusUpdate exporter] }

/-- Go `(*ControllerService).Register`. -/
def Register (env : ControllerEnv) (cluster : Cluster) (ctx : Context)
    (req : RegisterRequest) : WriteOutcome :=
  match authenticateExporter env cluster ctx with
  | .error err => { cluster := cluster, err := some err, trace := [] }
  | .ok exporter =>
    let conditions : List Condition :=
      [{ Type' := "Available", Status := "True", ObservedGeneration := exporter.Generation,
         LastTransitionTime := env.now, Reason := "Register", Message := [] }]
    let devices : List Device :=
      req.Reports.map fun device => { Uuid := device.Uuid, Labels := device.Labels }
    statusUpdate env cluster
      { exporter with Status := { Conditions := conditions, Devices := devices } }

/-- Go `(*ControllerService).Unregister`. -/
def Unregister (env : ControllerEnv) (cluster : Cluster) (ctx : Context)
    (req : UnregisterRequest) : WriteOutcome :=
  match authenticateExporter env cluster ctx with
  | .error err => { cluster := cluster, err := some err, trace := [] }
  | .ok exporter =>
    let conditions : List Condition :=
      [{ Type' := "Available", Status := "False", ObservedGeneration := exporter.Generation,
         LastTransitionTime := env.now, Reason := "Bye", Message := req.Reason }]
    statusUpdate env cluster
      { exporter with Status := { exporter.Status with Conditions := conditions } }

/-- A call of `Listen`: the stream handle, its context, and the cancel function that
`context.WithCancel(ctx)` returns to the call. -/
structure ListenCall where
  stream : StreamHandle
  ctx : Context
  cancel : CancelFunc
  deriving DecidableEq, Repr

/-- What a call of `Listen` has done when it returns or blocks. -/
structure ListenOutcome where
  listen : Registry listenContext
  ret : Return
  trace : List Effect
  deriving DecidableEq, Repr

/-- Go `(*ControllerService).Listen`, up to its return or to `<-ctx.Done()`. -/
def Listen (env : ControllerEnv) (cluster : Cluster) (listen : Registry listenContext)
    (call : ListenCall) : ListenOutcome :=
  match authenticateExporter env cluster call.ctx with
  | .error err => { listen := listen, ret := .returned (some err), trace := [] }
  | .ok exporter =>
    let lctx : listenContext := { cancel := call.cancel, stream := call.stream }
    match listen.LoadOrStore exporter.Name lctx with
    | (_, true, listen1) =>
      { listen := listen1
        ret := .returned (some (Errorf .AlreadyExists "exporter is already listening"))
        trace := [.cancel call.cancel] }
    | (_, false, listen1) => { listen := listen1, ret := .blocked, trace := [] }

/-- Go `(*ControllerService).Listen` from the moment `<-ctx.Done()` unblocks:
`return nil`, then the deferred `s.listen.Delete(exporter.GetName())` and `cancel()`. -/
def ListenDone (listen : Registry listenContext) (exporterName : GoString)
    (call : ListenCall) : ListenOutcome :=
  { listen := listen.Delete exporterName, ret := .returned none, trace := [.cancel call.cancel] }

/-- What a call of `Dial` has done when it returns. -/
structure DialOutcome where
  listen : Registry listenContext
  ret : Except GoError DialResponse
  trace : List Effect
  deriving DecidableEq, Repr

/-- The audience that `Dial` requests for a stream:
`(&url.URL{Scheme: "https", Host: routerEndpoint(), Path: "/stream/" + stream}).String()`. -/
def dialAudience (endpoint stream : GoString) : GoString :=
  url.URL.String { Scheme := "https".toList, Host := endpoint, Path := "/stream/".toList ++ stream }

/-- The `authv1.TokenRequest` that `Dial` submits for an audience: the object meta of the
tokenholder, the single audience, and `expsecs := int64(3600)`. -/
def tokenRequestFor (audience : GoString) : TokenRequest :=
  { Namespace := nameSpace, Name := namePrefix ++ "tokenholder".toList,
    Audiences := [audience], ExpirationSeconds := 3600 }

/-- Go `(*ControllerService).Dial`. -/
def Dial (env : ControllerEnv) (cluster : Cluster) (listen : Registry listenContext)
    (ctx : Context) (req : DialRequest) : DialOutcome :=
  match authenticateIdentity env cluster ctx with
  | .error err => { listen := listen, ret := .error err, trace := [] }
  | .ok _identity =>
    match listen.Load req.Uuid with
    | none =>
      { listen := listen, ret := .error (Errorf .Unavailable "no matching listener"), trace := [] }
    | some value =>
      let stream := env.NewUUID
      let audience := dialAudience env.routerEndpoint stream
      let tokenholderName : NamespacedName :=
        { Namespace := nameSpace, Name := namePrefix ++ "tokenholder".toList }
      match cluster.serviceAccounts tokenholderName with
      | none =>
        { listen := listen
          ret := .error (Errorf .Internal "failed to get tokenholder service account")
          trace := [] }
      | some tokenholder =>
        let tokenRequest := tokenRequestFor audience
        match env.CreateToken tokenholder tokenRequest with
        | .error err =>
          { listen := listen
            ret := .error (Errorf .Internal ("failed to issue stream token: " ++ err))
            trace := [.tokenRequest tokenRequest] }
        | .ok token =>
          let endpoint := env.routerEndpoint
          let response : ListenResponse := { RouterEndpoint := endpoint, RouterToken := token }
          match env.Send value.stream response with
          | some err =>
            { listen := listen, ret := .error err
              trace := [.tokenRequest tokenRequest, .send value.stream response] }
          | none =>
            { listen := listen
              ret := .ok { RouterEndpoint := endpoint, RouterToken := token }
              trace := [.tokenRequest tokenRequest, .send value.stream response] }

/-! ## Executions and sample collaborators -/

/-- The pairs of stream handles on which a trace invokes `Forward`. -/
def forwardPairs : List Effect → List (StreamHandle × StreamHandle)
  | [] => []
  | .forward a b :: rest => (a, b) :: forwardPairs rest
  | _ :: rest => forwardPairs rest

/-- A router at `router.example.com:8083` whose JWT parser reads the token text as its
one audience, and whose token review accepts every token. -/
def sampleRouter : RouterEnv :=
  { routerEndpoint := "router.example.com:8083".toList
    BearerTokenFromContext := fun _ => .ok "https://router.example.com:8083/stream/s1".toList
    ParseUnverified := fun token => some { GetAudience := some [token] }
    CreateTokenReview := fun spec =>
      some { Authenticated := true, Username := tokenholderUsername, Audiences := spec.Audiences }
    Forward := fun _ _ => none }

/-- The `n`-th caller of `Stream`: stream handle `n`, context `n`, cancel function `n`. -/
def caller (n : Nat) : StreamCall := { stream := n, ctx := n, cancel := n }

/-- The unreserved bytes of RFC 3986: letters, digits, `-`, `.`, `_`, `~`. -/
def unreserved (c : Char) : Bool :=
  ('a' ≤ c && c ≤ 'z') || ('A' ≤ c && c ≤ 'Z') || ('0' ≤ c && c ≤ '9') || c ∈ "-_.~".toList

/-- The bytes of a registered name of RFC 3986 written without percent-escapes:
unreserved bytes and the sub-delimiters `!$&'()*+,;=`. -/
def regNameByte (c : Char) : Bool :=
  unreserved c || c ∈ "!$&'()*+,;=".toList

/-- The bytes that a URL path carries unescaped: unreserved bytes and `$&+,/:;=@`. -/
def pathByte (c : Char) : Bool :=
  unreserved c || c ∈ "$&+,/:;=@".toList

/-- A `host[:port]` of RFC 3986 written without percent-escapes: a registered name
(`router.example.com`, `router+eu.example.com`, `10.0.0.1`), or an IP literal in brackets
(`[::1]`) whose bytes are those of a registered name and `:`, followed by an optional
`:port` of digits. -/
def isHostPort (h : GoString) : Bool :=
  match h with
  | [] => true
  | c :: rest =>
    if c = '[' then
      match rest.dropWhile (fun b => regNameByte b || b = ':') with
      | d :: port => d = ']' && url.validOptionalPort port
      | [] => false
    else url.validOptionalPort ((c :: rest).dropWhile regNameByte)

/-- Whether an audience parses as a URL with scheme `https`, host equal to the router
endpoint and a path that begins with `/stream/`. -/
def isLocalAudience (endpoint audience : GoString) : Bool :=
  match url.Parse audience with
  | some aud =>
    aud.Scheme = "https".toList ∧ aud.Host = endpoint
      ∧ strings.HasPrefix aud.Path "/stream/".toList
  | none => false

/-- The list `L` of the decision table: the audiences of `A` that are local. -/
def localAudiences (endpoint : GoString) (A : List GoString) : List GoString :=
  A.filter (isLocalAudience endpoint)

/-- The path suffix of an audience after `/stream/`. -/
def pathSuffix (audience : GoString) : GoString :=
  match url.Parse audience with
  | some aud => strings.TrimPrefix aud.Path "/stream/".toList
  | none => []

/-- An audience as `URL.String` writes it again after `url.Parse`. -/
def reserialised (audience : GoString) : GoString :=
  match url.Parse audience with
  | some aud => aud.String
  | none => audience

/-- The decision table for `authenticate`, given the audience list `A` of the token and
the outcome of the token review: `InvalidArgument` unless exactly one audience is local;
with `a` the local one, its path suffix exactly when the review succeeded and reports
`authenticated`, the tokenholder user name, and a returned audience list containing
`needle a`; `Unauthenticated` in every other case. -/
def decisionTableWith (needle : GoString → GoString) (endpoint : GoString)
    (A : List GoString) (outcome : Option TokenReviewStatus) : Except Code GoString :=
  match localAudiences endpoint A with
  | [a] =>
    match outcome with
    | some status =>
      if status.Authenticated = true ∧ status.Username = tokenholderUsername
          ∧ needle a ∈ status.Audiences then .ok (pathSuffix a)
      else .error .Unauthenticated
    | none => .error .Unauthenticated
  | _ => .error .InvalidArgument

/-- The decision table in the words of the specification: the returned audience list
must contain the audience `a` itself. -/
def decisionTable (endpoint : GoString) (A : List GoString)
    (outcome : Option TokenReviewStatus) : Except Code GoString :=
  decisionTableWith id endpoint A outcome

/-- The outcome of a call reduced to its status code. -/
def codeOf {α : Type} (r : Except GoError α) : Except Code α :=
  match r with
  | .ok v => .ok v
  | .error err => .error err.code

/-- A router at `router.example.com:8083` that receives a token whose one audience
writes the scheme in upper case, and whose token review reports that audience back. -/
def upperCaseRouter : RouterEnv :=
  { routerEndpoint := "router.example.com:8083".toList
    BearerTokenFromContext := fun _ => .ok "token".toList
    ParseUnverified := fun _ =>
      some { GetAudience := some ["HTTPS://router.example.com:8083/stream/s1".toList] }
    CreateTokenReview := fun _ =>
      some { Authenticated := true, Username := tokenholderUsername,
             Audiences := ["HTTPS://router.example.com:8083/stream/s1".toList] }
    Forward := fun _ _ => none }

/-- Whether a credential reference points to a secret whose `token` field equals the
presented token. -/
def secretMatches (cluster : Cluster) (token : GoString) (ref : NamespacedName) : Bool :=
  match cluster.secrets ref with
  | some secret => secret.Data.lookup "token".toList = some token
  | none => false

/-- Whether at least one credential reference points to a secret with the presented token. -/
def credentialMatches (cluster : Cluster) (token : GoString) (refs : List NamespacedName) :
    Bool :=
  refs.any (secretMatches cluster token)

/-- A controller whose request contexts carry the credential of the exporter
`default/exporter-01` (context 1) or of the client `default/client-01` (context 2), and
nothing otherwise; every oracle succeeds. -/
def sampleController : ControllerEnv :=
  { routerEndpoint := "router.example.com:8083".toList
    BearerTokenFromContext := fun ctx =>
      if ctx = 1 then .ok "exporter-01".toList
      else if ctx = 2 then .ok "client-01".toList
      else .error (Errorf .Unauthenticated "missing bearer token")
    DecodeString := fun encoded => some encoded
    Unmarshal := fun decoded =>
      if decoded = "exporter-01".toList then
        some { Namespace := "default".toList, Name := "exporter-01".toList,
               Token := "s3cret".toList }
      else if decoded = "client-01".toList then
        some { Namespace := "default".toList, Name := "client-01".toList,
               Token := "hunter2".toList }
      else none
    now := 1700000000
    StatusUpdate := fun _ => none
    NewUUID := "7c9e6679-7425-40de-944b-e07fc1f90ae7".toList
    CreateToken := fun _ _ => .ok "signed-token".toList
    Send := fun _ _ => none }

/-- The sample controller with a `Listen` stream whose `Send` fails. -/
def brokenPipeController : ControllerEnv :=
  { sampleController with Send := fun _ _ => some (Errorf .Unknown "broken pipe") }

/-- A directory with one exporter, one client identity, their secrets and the
tokenholder service account; `credentials` are the exporter's and the identity's
credential references. -/
def clusterWith (credentials : List NamespacedName) : Cluster :=
  { exporters := fun key =>
      if key = { Namespace := "default".toList, Name := "exporter-01".toList } then
        some { Namespace := "default".toList, Name := "exporter-01".toList, Generation := 1,
               Credentials := credentials,
               Status := { Conditions := [], Devices := [] } }
      else none
    identities := fun key =>
      if key = { Namespace := "default".toList, Name := "client-01".toList } then
        some { Namespace := "default".toList, Name := "client-01".toList,
               Credentials := credentials }
      else none
    secrets := fun key =>
      if key = { Namespace := "default".toList, Name := "exporter-secret".toList } then
        some { Data := [("token".toList, "s3cret".toList)] }
      else if key = { Namespace := "default".toList, Name := "client-secret".toList } then
        some { Data := [("token".toList, "hunter2".toList)] }
      else none
    serviceAccounts := fun key =>
      if key = { Namespace := nameSpace, Name := namePrefix ++ "tokenholder".toList } then
        some { Namespace := nameSpace, Name := namePrefix ++ "tokenholder".toList }
      else none }

/-- The sample directory: both principals refer to both secrets. -/
def sampleCluster : Cluster :=
  clusterWith [{ Namespace := "default".toList, Name := "exporter-secret".toList },
    { Namespace := "default".toList, Name := "client-secret".toList }]

/-- A directory whose principals refer first to a secret that cannot be read and then
to the two secrets of the sample directory. -/
def lostSecretCluster : Cluster :=
  clusterWith [{ Namespace := "default".toList, Name := "lost".toList },
    { Namespace := "default".toList, Name := "exporter-secret".toList },
    { Namespace := "default".toList, Name := "client-secret".toList }]

/-- The sample directory with a second exporter of the same name, `exporter-01`, in the
namespace `lab`. -/
def twoNamespaceCluster : Cluster :=
  { sampleCluster with
    exporters := fun key =>
      if key = { Namespace := "lab".toList, Name := "exporter-01".toList } then
        some { Namespace := "lab".toList, Name := "exporter-01".toList, Generation := 1,
               Credentials :=
                 [{ Namespace := "default".toList, Name := "exporter-secret".toList }],
               Status := { Conditions := [], Devices := [] } }
      else sampleCluster.exporters key }

/-- The sample controller, where context 4 carries the credential of the exporter
`lab/exporter-01`. -/
def twoNamespaceController : ControllerEnv :=
  { sampleController with
    BearerTokenFromContext := fun ctx =>
      if ctx = 4 then .ok "lab/exporter-01".toList
      else sampleController.BearerTokenFromContext ctx
    Unmarshal := fun decoded =>
      if decoded = "lab/exporter-01".toList then
        some { Namespace := "lab".toList, Name := "exporter-01".toList,
               Token := "s3cret".toList }
      else sampleController.Unmarshal decoded }

/-- The sample controller with another advertised router endpoint. -/
def controllerAt (endpoint : GoString) : ControllerEnv :=
  { sampleController with routerEndpoint := endpoint }

/-- A router at the given endpoint that receives a token whose one audience is the text
`https://<endpoint>/stream/<stream>`, and whose token review accepts every token. -/
def routerAt (endpoint stream : GoString) : RouterEnv :=
  { routerEndpoint := endpoint
    BearerTokenFromContext := fun _ => .ok "signed-token".toList
    ParseUnverified := fun _ =>
      some { GetAudience := some ["https://".toList ++ endpoint ++ "/stream/".toList ++ stream] }
    CreateTokenReview := fun spec =>
      some { Authenticated := true, Username := tokenholderUsername, Audiences := spec.Audiences }
    Forward := fun _ _ => none }

/-! ## Theorems -/

theorem lookup_append_self {V : Type} (m : Registry V) (key : GoString) (value : V)
    (h : m.lookup key = none) : (m ++ [(key, value)]).lookup key = some value := by
  induction m with
  | nil => simp [List.lookup]
  | cons kv m ih =>
    obtain ⟨k, v⟩ := kv
    simp only [List.cons_append, List.lookup_cons] at h ⊢
    cases hk : key == k with
    | true => simp [hk] at h
    | false =>
      simp only [hk] at h ⊢
      exact ih h

/-- A call that authenticates to a stream name with no entry parks its own entry and
blocks, running no effect beyond those of `authenticate`. -/
theorem Stream_first (env : RouterEnv) (pending : Registry streamContext) (call : StreamCall)
    (sid : GoString) (hauth : (authenticate env call.ctx).1 = .ok sid)
    (hfree : pending.Load sid = none) :
    Stream env pending call =
      { pending := pending ++ [(sid, { cancel := call.cancel, stream := call.stream })]
        ret := .blocked
        trace := (authenticate env call.ctx).2 } := by
  unfold Stream
  rcases hres : authenticate env call.ctx with ⟨res, effects⟩
  rw [hres] at hauth
  simp only at hauth
  subst hauth
  simp only [Registry.Load] at hfree
  simp [Registry.LoadOrStore, hfree]

/-- A call that authenticates to a stream name with an entry forwards against that
entry, leaves the registry as it is, and runs the two deferred cancels afterwards. -/
theorem Stream_loaded (env : RouterEnv) (pending : Registry streamContext) (call : StreamCall)
    (sid : GoString) (parked : streamContext)
    (hauth : (authenticate env call.ctx).1 = .ok sid)
    (hparked : pending.Load sid = some parked) :
    Stream env pending call =
      { pending := pending
        ret := .returned (env.Forward call.stream parked.stream)
        trace := (authenticate env call.ctx).2 ++
          [.forward call.stream parked.stream, .cancel parked.cancel, .cancel call.cancel] } := by
  unfold Stream
  rcases hres : authenticate env call.ctx with ⟨res, effects⟩
  rw [hres] at hauth
  simp only at hauth
  subst hauth
  simp only [Registry.Load] at hparked
  simp [Registry.LoadOrStore, hparked]

theorem forwardPairs_append (xs ys : List Effect) :
    forwardPairs (xs ++ ys) = forwardPairs xs ++ forwardPairs ys := by
  induction xs with
  | nil => rfl
  | cons x xs ih => cases x <;> simp [forwardPairs, ih]

/-- The effects of `authenticate` are token reviews only. -/
theorem authenticate_trace (env : RouterEnv) (ctx : Context) :
    (authenticate env ctx).2 = [] ∨ ∃ spec, (authenticate env ctx).2 = [.tokenReview spec] := by
  unfold authenticate
  split
  · exact Or.inl rfl
  · split
    · exact Or.inl rfl
    · split
      · exact Or.inl rfl
      · split
        · dsimp only
          split
          · exact Or.inr ⟨_, rfl⟩
          · split <;> exact Or.inr ⟨_, rfl⟩
        · exact Or.inl rfl

theorem forwardPairs_authenticate (env : RouterEnv) (ctx : Context) :
    forwardPairs (authenticate env ctx).2 = [] := by
  rcases authenticate_trace env ctx with h | ⟨spec, h⟩ <;> rw [h] <;> rfl

/-- C1 (counterexample): three authenticated arrivals present the stream name `s1`. The
first finds no entry, parks its own and waits. The second finds it: `LoadOrStore`
answers `loaded = true` and leaves the registry as it was, entry included, and the
second arrival forwards. A third arrival that comes while the second is still
forwarding (no cancel function has run yet, the first call is still waiting) finds the
same entry, does not take the waiting path, and invokes `Forward` against the first
arrival's handle: `Forward` is invoked for two pairs. -/
theorem third_arrival_during_forwarding :
    Stream sampleRouter [] (caller 1) =
      { pending := [("s1".toList, { cancel := 1, stream := 1 })]
        ret := .blocked
        trace := [.tokenReview
          { Token := "https://router.example.com:8083/stream/s1".toList
            Audiences := ["https://router.example.com:8083/stream/s1".toList] }] } ∧
    Registry.LoadOrStore [("s1".toList, ({ cancel := 1, stream := 1 } : streamContext))]
        "s1".toList { cancel := 2, stream := 2 } =
      ({ cancel := 1, stream := 1 }, true, [("s1".toList, { cancel := 1, stream := 1 })]) ∧
    forwardPairs
        (Stream sampleRouter [("s1".toList, { cancel := 1, stream := 1 })] (caller 2)).trace
      = [(2, 1)] ∧
    (Stream sampleRouter [("s1".toList, { cancel := 1, stream := 1 })] (caller 3)).ret
      = .returned none ∧
    forwardPairs
        (Stream sampleRouter [("s1".toList, { cancel := 1, stream := 1 })] (caller 3)).trace
      = [(3, 1)] := by
  decide

/-- C1 (amended): for every stream name and every arrival that authenticates to it: if
the pending registry holds no entry for the name, the arrival parks its own entry and
blocks on the waiting path without invoking `Forward`; if it holds a parked entry
(`LoadOrStore` answers `loaded = true`), the arrival invokes `Forward` exactly once, on
its own stream handle and the parked one, returns what `Forward` returns, and does not
itself remove the entry. Nothing is said on whether the entry is still present once
the call that parked it has ended. -/
theorem pairing_with_parked_entry (env : RouterEnv) (pending : Registry streamContext)
    (call : StreamCall) (sid : GoString)
    (hauth : (authenticate env call.ctx).1 = .ok sid) :
    (pending.Load sid = none →
      Stream env pending call =
        { pending := pending ++ [(sid, { cancel := call.cancel, stream := call.stream })]
          ret := .blocked
          trace := (authenticate env call.ctx).2 } ∧
      forwardPairs (Stream env pending call).trace = []) ∧
    (∀ parked, pending.Load sid = some parked →
      (Stream env pending call).ret = .returned (env.Forward call.stream parked.stream) ∧
      forwardPairs (Stream env pending call).trace = [(call.stream, parked.stream)] ∧
      (Stream env pending call).pending = pending) := by
  constructor
  · intro hfree
    have h1 := Stream_first env pending call sid hauth hfree
    refine ⟨h1, ?_⟩
    rw [h1]
    exact forwardPairs_authenticate env call.ctx
  · intro parked hparked
    have h2 := Stream_loaded env pending call sid parked hauth hparked
    rw [h2]
    refine ⟨rfl, ?_, rfl⟩
    show forwardPairs ((authenticate env call.ctx).2 ++ _) = _
    rw [forwardPairs_append, forwardPairs_authenticate]
    rfl

/-- Witness of `pairing_with_parked_entry`: the first and the second caller at the sample
router. -/
theorem pairing_with_parked_entry_witness :
    (Stream sampleRouter [] (caller 1) =
      { pending := [] ++ [("s1".toList, { cancel := (caller 1).cancel, stream := (caller 1).stream })]
        ret := .blocked
        trace := (authenticate sampleRouter (caller 1).ctx).2 } ∧
      forwardPairs (Stream sampleRouter [] (caller 1)).trace = []) ∧
    ((Stream sampleRouter [("s1".toList, { cancel := 1, stream := 1 })] (caller 2)).ret =
        .returned (sampleRouter.Forward (caller 2).stream 1) ∧
      forwardPairs
          (Stream sampleRouter [("s1".toList, { cancel := 1, stream := 1 })] (caller 2)).trace
        = [((caller 2).stream, 1)] ∧
      (Stream sampleRouter [("s1".toList, { cancel := 1, stream := 1 })] (caller 2)).pending =
        [("s1".toList, { cancel := 1, stream := 1 })]) :=
  ⟨(pairing_with_parked_entry sampleRouter [] (caller 1) "s1".toList (by decide)).1 (by decide),
    (pairing_with_parked_entry sampleRouter [("s1".toList, { cancel := 1, stream := 1 })]
      (caller 2) "s1".toList (by decide)).2 { cancel := 1, stream := 1 } (by decide)⟩

namespace strings

theorem Index_single_of_not_mem (c : Char) (s : GoString) (h : c ∉ s) : Index s [c] = none := by
  induction s with
  | nil => simp [Index]
  | cons d s ih =>
    simp only [List.mem_cons, not_or] at h
    simp [Index, List.isPrefixOf, h.1, ih h.2]

theorem Index_of_head_not_mem (c : Char) (t s : GoString) (h : c ∉ s) :
    Index s (c :: t) = none := by
  induction s with
  | nil => simp [Index]
  | cons d s ih =>
    simp only [List.mem_cons, not_or] at h
    simp [Index, List.isPrefixOf, h.1, ih h.2]

theorem Index_single_append (c : Char) (a b : GoString) (h : c ∉ a) :
    Index (a ++ c :: b) [c] = some a.length := by
  induction a with
  | nil => simp [Index, List.isPrefixOf]
  | cons d a ih =>
    simp only [List.mem_cons, not_or] at h
    simp [Index, List.isPrefixOf, h.1, ih h.2]

theorem LastIndex_single_of_not_mem (c : Char) (s : GoString) (h : c ∉ s) :
    LastIndex s [c] = none := by
  induction s with
  | nil => simp [LastIndex]
  | cons d s ih =>
    simp only [List.mem_cons, not_or] at h
    simp [LastIndex, List.isPrefixOf, h.1, ih h.2]

theorem LastIndex_single_append (c : Char) (a b : GoString) (h : c ∉ b) :
    LastIndex (a ++ c :: b) [c] = some a.length := by
  induction a with
  | nil => simp [LastIndex, List.isPrefixOf, LastIndex_single_of_not_mem c b h]
  | cons d a ih => simp [LastIndex, ih]

end strings

theorem char_le_iff (a b : Char) : a ≤ b ↔ a.toNat ≤ b.toNat := by
  simp only [Char.le_def, UInt32.le_def, Char.toNat, UInt32.toNat]
  exact Iff.rfl

theorem unreserved_ne (c d : Char) (h : unreserved c = true) (hd : unreserved d = false) :
    c ≠ d := by
  intro e; subst e; simp [h] at hd

theorem unreserved_range (c : Char) (h : unreserved c = true) :
    0x20 ≤ c.toNat ∧ c.toNat < 0x7f := by
  simp only [unreserved, Bool.or_eq_true, Bool.and_eq_true, decide_eq_true_eq, char_le_iff] at h
  rcases h with ((h | h) | h) | h
  · have : 'a'.toNat = 97 := by decide
    have : 'z'.toNat = 122 := by decide
    omega
  · have : 'A'.toNat = 65 := by decide
    have : 'Z'.toNat = 90 := by decide
    omega
  · have : '0'.toNat = 48 := by decide
    have : '9'.toNat = 57 := by decide
    omega
  · simp at h
    rcases h with h | h | h | h <;> subst h <;> decide

theorem shouldEscape_unreserved (c : Char) (mode : url.encoding) (h : unreserved c = true) :
    url.shouldEscape c mode = false := by
  simp only [unreserved, Bool.or_eq_true] at h
  unfold url.shouldEscape
  rcases h with h | h
  · rw [if_pos (by simpa only [Bool.or_eq_true] using h)]
  · simp only [decide_eq_true_eq] at h
    split
    · rfl
    · split
      · rfl
      · rfl

/-- A byte that is unreserved or listed differs from one that is neither. -/
theorem listed_ne (extra : List Char) (c d : Char)
    (hc : unreserved c = true ∨ c ∈ extra) (hd : unreserved d = false) (hx : d ∉ extra) :
    c ≠ d := by
  rcases hc with hu | hm
  · exact unreserved_ne c d hu hd
  · intro e
    exact hx (e ▸ hm)

theorem listed_range (extra : List Char)
    (hx : ∀ c ∈ extra, 0x20 ≤ c.toNat ∧ c.toNat < 0x7f) (c : Char)
    (hc : unreserved c = true ∨ c ∈ extra) : 0x20 ≤ c.toNat ∧ c.toNat < 0x7f := by
  rcases hc with hu | hm
  · exact unreserved_range c hu
  · exact hx c hm

theorem listed_shouldEscape (extra : List Char) (mode : url.encoding)
    (hx : ∀ c ∈ extra, url.shouldEscape c mode = false) (c : Char)
    (hc : unreserved c = true ∨ c ∈ extra) : url.shouldEscape c mode = false := by
  rcases hc with hu | hm
  · exact shouldEscape_unreserved c mode hu
  · exact hx c hm

theorem pathByte_listed (c : Char) (h : pathByte c = true) :
    unreserved c = true ∨ c ∈ "$&+,/:;=@".toList := by
  simpa only [pathByte, Bool.or_eq_true, decide_eq_true_eq] using h

theorem regNameByte_listed (c : Char) (h : regNameByte c = true) :
    unreserved c = true ∨ c ∈ "!$&'()*+,;=".toList := by
  simpa only [regNameByte, Bool.or_eq_true, decide_eq_true_eq] using h

namespace url

open encoding

theorem escape_of_plain (mode : encoding) (s : GoString)
    (h : ∀ c ∈ s, shouldEscape c mode = false) : escape s mode = s := by
  induction s with
  | nil => rfl
  | cons c s ih =>
    have hc := h c (List.mem_cons_self _ _)
    have hs := ih (fun d hd => h d (List.mem_cons_of_mem _ hd))
    unfold escape at hs ⊢
    simp [List.flatMap_cons, hc, hs]

theorem unescape_of_plain (mode : encoding) (s : GoString)
    (h : ∀ c ∈ s, c ≠ '%' ∧ (c = '+' → mode ≠ encodeQueryComponent) ∧
      ((mode = encodeHost ∨ mode = encodeZone) → shouldEscape c encodeHost = false)) :
    unescape mode s = some s := by
  induction s with
  | nil => rfl
  | cons c s ih =>
    obtain ⟨h1, h2, h3⟩ := h c (List.mem_cons_self _ _)
    have hs := ih (fun d hd => h d (List.mem_cons_of_mem _ hd))
    unfold unescape
    rw [if_neg h1, hs]
    by_cases hp : c = '+'
    · rw [if_pos hp, if_neg (h2 hp), hp]
      rfl
    · rw [if_neg hp]
      by_cases hm : mode = encodeHost ∨ mode = encodeZone
      · simp [h3 hm]
      · simp only [not_or] at hm
        simp [hm.1, hm.2]

theorem getScheme_https (rest : GoString) :
    getScheme ("https:".toList ++ rest) = some ("https".toList, rest) := rfl

theorem stringContainsCTLByte_of_range (s : GoString)
    (h : ∀ c ∈ s, 0x20 ≤ c.toNat ∧ c.toNat < 0x7f) : stringContainsCTLByte s = false := by
  unfold stringContainsCTLByte
  rw [List.any_eq_false]
  intro c hc
  have := h c hc
  simp only [Bool.or_eq_true, decide_eq_true_eq, not_or]
  omega

theorem validOptionalPort_mem (port : GoString) (h : validOptionalPort port = true) :
    (port = [] ∨ ∃ digits, port = ':' :: digits ∧ ∀ b ∈ digits, unreserved b = true) := by
  cases port with
  | nil => exact Or.inl rfl
  | cons c digits =>
    right
    simp only [validOptionalPort, Bool.and_eq_true, decide_eq_true_eq, List.all_eq_true] at h
    have hc : c = ':' := h.1
    subst hc
    refine ⟨digits, rfl, ?_⟩
    intro b hb
    have := h.2 b hb
    simp only [unreserved, Bool.or_eq_true, Bool.and_eq_true, decide_eq_true_eq] at this ⊢
    exact Or.inl (Or.inr this)

end url

/-- The two shapes of a `host[:port]`: a registered name with an optional port, or a
bracketed IP literal with an optional port. -/
theorem isHostPort_cases (h : GoString) (hh : isHostPort h = true) :
    (∃ name port, h = name ++ port ∧ (∀ c ∈ name, regNameByte c = true) ∧
      url.validOptionalPort port = true) ∨
    (∃ inner port, h = ('[' :: inner) ++ ']' :: port ∧
      (∀ c ∈ inner, regNameByte c = true ∨ c = ':') ∧ url.validOptionalPort port = true) := by
  cases h with
  | nil => exact Or.inl ⟨[], [], rfl, by simp, rfl⟩
  | cons c rest =>
    simp only [isHostPort] at hh
    by_cases hc : c = '['
    · right
      rw [if_pos hc] at hh
      subst hc
      cases hd : rest.dropWhile (fun b => regNameByte b || b = ':') with
      | nil => rw [hd] at hh; cases hh
      | cons d port =>
        rw [hd] at hh
        simp only [Bool.and_eq_true, decide_eq_true_eq] at hh
        refine ⟨rest.takeWhile (fun b => regNameByte b || b = ':'), port, ?_, ?_, hh.2⟩
        · have := (List.takeWhile_append_dropWhile
            (fun b => regNameByte b || decide (b = ':')) rest).symm
          rw [hd, hh.1] at this
          rw [List.cons_append, ← this]
        · intro b hb
          have := List.mem_takeWhile_imp hb
          simpa only [Bool.or_eq_true, decide_eq_true_eq] using this
    · left
      rw [if_neg hc] at hh
      exact ⟨(c :: rest).takeWhile regNameByte, (c :: rest).dropWhile regNameByte,
        (List.takeWhile_append_dropWhile _ _).symm, fun _ hb => List.mem_takeWhile_imp hb, hh⟩

/-- Every byte of a `host[:port]` is unreserved, a sub-delimiter, `:`, `[` or `]`. -/
theorem isHostPort_mem (h : GoString) (hh : isHostPort h = true) :
    ∀ c ∈ h, unreserved c = true ∨ c ∈ "!$&'()*+,;=:[]".toList := by
  have hreg : ∀ c, regNameByte c = true →
      unreserved c = true ∨ c ∈ "!$&'()*+,;=:[]".toList := by
    intro c hc
    rcases regNameByte_listed c hc with hu | hm
    · exact Or.inl hu
    · exact Or.inr
        ((show ∀ d ∈ "!$&'()*+,;=".toList, d ∈ "!$&'()*+,;=:[]".toList by decide) c hm)
  have hport : ∀ port, url.validOptionalPort port = true → ∀ c ∈ port,
      unreserved c = true ∨ c ∈ "!$&'()*+,;=:[]".toList := by
    intro port hp c hc
    rcases url.validOptionalPort_mem port hp with rfl | ⟨digits, rfl, hd⟩
    · simp at hc
    · rcases List.mem_cons.1 hc with rfl | hc
      · exact Or.inr (by decide)
      · exact Or.inl (hd c hc)
  intro c hc
  rcases isHostPort_cases h hh with ⟨name, port, rfl, hname, hp⟩ | ⟨inner, port, rfl, hinner, hp⟩
  · rcases List.mem_append.1 hc with hc | hc
    · exact hreg c (hname c hc)
    · exact hport port hp c hc
  · rw [List.mem_append, List.mem_cons, List.mem_cons] at hc
    rcases hc with (rfl | hc) | rfl | hc
    · exact Or.inr (by decide)
    · rcases hinner c hc with hr | rfl
      · exact hreg c hr
      · exact Or.inr (by decide)
    · exact Or.inr (by decide)
    · exact hport port hp c hc

namespace url

open encoding

/-- A `host[:port]` is accepted by `parseHost` as it stands. -/
theorem parseHost_hostPort (h : GoString) (hh : isHostPort h = true) :
    parseHost h = some h := by
  have hmem := isHostPort_mem h hh
  have hun : unescape encodeHost h = some h := by
    apply unescape_of_plain
    intro c hc
    exact ⟨listed_ne _ c '%' (hmem c hc) (by decide) (by decide), fun _ => by decide,
      fun _ => listed_shouldEscape _ encodeHost (by decide) c (hmem c hc)⟩
  have hnotin : ∀ (d : Char) (port : GoString), validOptionalPort port = true →
      unreserved d = false → d ≠ ':' → d ∉ port := by
    intro d port hp hd hd' hc
    rcases validOptionalPort_mem port hp with rfl | ⟨digits, rfl, hdig⟩
    · simp at hc
    · rcases List.mem_cons.1 hc with e | hc
      · exact hd' e
      · exact unreserved_ne _ d (hdig d hc) hd rfl
  rcases isHostPort_cases h hh with ⟨name, port, rfl, hname, hp⟩ | ⟨inner, port, rfl, hinner, hp⟩
  · have hbr : strings.HasPrefix (name ++ port) ['['] = false := by
      cases hnp : name ++ port with
      | nil => rfl
      | cons c t =>
        have hcm : c ∈ name ++ port := by rw [hnp]; exact List.mem_cons_self _ _
        have hc : c ≠ '[' := by
          rcases List.mem_append.1 hcm with hc | hc
          · exact listed_ne _ c '[' (regNameByte_listed c (hname c hc)) (by decide) (by decide)
          · intro e
            exact hnotin '[' port hp (by decide) (by decide) (e ▸ hc)
        simp [strings.HasPrefix, List.isPrefixOf, Ne.symm hc]
    have hcolon : ':' ∉ name := fun hc =>
      listed_ne _ ':' ':' (regNameByte_listed _ (hname _ hc)) (by decide) (by decide) rfl
    unfold parseHost
    rw [hbr]
    rcases validOptionalPort_mem port hp with rfl | ⟨digits, rfl, hdig⟩
    · rw [List.append_nil] at hun ⊢
      rw [strings.LastIndex_single_of_not_mem _ _ hcolon]
      simpa using hun
    · have hcd : ':' ∉ digits := fun hc => unreserved_ne _ ':' (hdig _ hc) (by decide) rfl
      rw [strings.LastIndex_single_append _ _ _ hcd]
      simp only [List.drop_left, hp]
      simpa using hun
  · have hbr : strings.HasPrefix (('[' :: inner) ++ ']' :: port) ['['] = true := by
      simp [strings.HasPrefix, List.isPrefixOf]
    have hclose : ']' ∉ port := hnotin ']' port hp (by decide) (by decide)
    have hpct : '%' ∉ '[' :: inner := by
      intro hc
      rcases List.mem_cons.1 hc with e | hc
      · exact absurd e (by decide)
      · rcases hinner _ hc with hr | e
        · exact listed_ne _ '%' '%' (regNameByte_listed _ hr) (by decide) (by decide) rfl
        · exact absurd e (by decide)
    have hlen : (('[' :: inner) ++ ']' :: port).drop (('[' :: inner).length + 1) = port := by
      have : ('[' :: inner) ++ ']' :: port = (('[' :: inner) ++ [']']) ++ port := by simp
      rw [this]
      have hl : ('[' :: inner).length + 1 = (('[' :: inner) ++ [']']).length := by simp
      rw [hl, List.drop_left]
    have hzone : strings.Index ('[' :: inner) "%25".toList = none :=
      strings.Index_of_head_not_mem '%' "25".toList _ hpct
    unfold parseHost
    rw [hbr, strings.LastIndex_single_append _ _ _ hclose]
    simp only [if_true, hlen, hp, List.take_left, Bool.not_true, Bool.false_eq_true, if_false,
      hzone]
    exact hun

/-- The bytes of the audience `https://h/stream/s`. -/
theorem local_bytes (h s : GoString)
    (hh : ∀ c ∈ h, unreserved c = true ∨ c ∈ "!$&'()*+,;=:[]".toList)
    (hs : ∀ c ∈ s, pathByte c = true) (pre : GoString)
    (hpre : ∀ c ∈ pre, unreserved c = true ∨ c ∈ "!$&'()*+,;=:[]/@".toList) :
    ∀ c ∈ pre ++ h ++ "/stream/".toList ++ s,
      unreserved c = true ∨ c ∈ "!$&'()*+,;=:[]/@".toList := by
  intro c hc
  simp only [List.mem_append] at hc
  rcases hc with ((hc | hc) | hc) | hc
  · exact hpre c hc
  · rcases hh c hc with hu | hm
    · exact Or.inl hu
    · exact Or.inr
        ((show ∀ d ∈ "!$&'()*+,;=:[]".toList, d ∈ "!$&'()*+,;=:[]/@".toList by decide) c hm)
  · exact (show ∀ d ∈ "/stream/".toList,
      unreserved d = true ∨ d ∈ "!$&'()*+,;=:[]/@".toList by decide) c hc
  · rcases pathByte_listed c (hs c hc) with hu | hm
    · exact Or.inl hu
    · exact Or.inr
        ((show ∀ d ∈ "$&+,/:;=@".toList, d ∈ "!$&'()*+,;=:[]/@".toList by decide) c hm)

theorem parse_local (h s : GoString) (hh : isHostPort h = true)
    (hs : ∀ c ∈ s, pathByte c = true) :
    parse ("https://".toList ++ h ++ "/stream/".toList ++ s) =
      some { Scheme := "https".toList, Host := h, Path := "/stream/".toList ++ s } := by
  have hmem := isHostPort_mem h hh
  have hraw := local_bytes h s hmem hs "https://".toList (by decide)
  have hctl : stringContainsCTLByte ("https://".toList ++ h ++ "/stream/".toList ++ s) = false := by
    apply stringContainsCTLByte_of_range
    intro c hc
    exact listed_range _ (by decide) c (hraw c hc)
  have hstar : "https://".toList ++ h ++ "/stream/".toList ++ s ≠ ['*'] := by
    intro e
    have := congrArg List.head? e
    simp at this
  have hscheme : getScheme ("https://".toList ++ h ++ "/stream/".toList ++ s) =
      some ("https".toList, "//".toList ++ h ++ "/stream/".toList ++ s) := by
    have := getScheme_https ("//".toList ++ h ++ "/stream/".toList ++ s)
    simpa using this
  unfold parse
  rw [hctl, if_neg (by simp), if_neg hstar, hscheme]
  have hrest := local_bytes h s hmem hs "//".toList (by decide)
  have hq : '?' ∉ "//".toList ++ h ++ "/stream/".toList ++ s := fun hc =>
    listed_ne _ _ '?' (hrest _ hc) (by decide) (by decide) rfl
  have hcount : strings.Count ("//".toList ++ h ++ "/stream/".toList ++ s) '?' = 0 :=
    List.count_eq_zero_of_not_mem hq
  have hcut : strings.Cut ("//".toList ++ h ++ "/stream/".toList ++ s) ['?'] =
      ("//".toList ++ h ++ "/stream/".toList ++ s, [], false) := by
    unfold strings.Cut
    rw [strings.Index_single_of_not_mem _ _ hq]
  have hslash : '/' ∉ h := fun hc =>
    listed_ne _ _ '/' (hmem _ hc) (by decide) (by decide) rfl
  have hat : '@' ∉ h := fun hc =>
    listed_ne _ _ '@' (hmem _ hc) (by decide) (by decide) rfl
  have hidx : strings.Index (h ++ "/stream/".toList ++ s) ['/'] = some h.length := by
    have := strings.Index_single_append '/' h ("stream/".toList ++ s) hslash
    simpa using this
  have hauth : parseAuthority h = some (none, h) := by
    unfold parseAuthority
    rw [strings.LastIndex_single_of_not_mem _ _ hat, parseHost_hostPort h hh]
    rfl
  have hpathb : ∀ c ∈ "/stream/".toList ++ s,
      unreserved c = true ∨ c ∈ "$&+,/:;=@".toList := by
    intro c hc
    rw [List.mem_append] at hc
    rcases hc with hc | hc
    · revert c
      decide
    · exact pathByte_listed c (hs c hc)
  have hunesc : unescape encodePath ("/stream/".toList ++ s) = some ("/stream/".toList ++ s) := by
    apply unescape_of_plain
    intro c hc
    exact ⟨listed_ne _ c '%' (hpathb c hc) (by decide) (by decide), fun _ => by decide,
      fun hm => by simp at hm⟩
  have hesc : escape ("/stream/".toList ++ s) encodePath = "/stream/".toList ++ s := by
    apply escape_of_plain
    intro c hc
    exact listed_shouldEscape _ encodePath (by decide) c (hpathb c hc)
  have hlower : strings.ToLower "https".toList = "https".toList := by decide
  have hpre1 : strings.HasPrefix ("//".toList ++ h ++ "/stream/".toList ++ s) ['/'] = true := rfl
  have hpre2 : strings.HasPrefix ("//".toList ++ h ++ "/stream/".toList ++ s) "//".toList = true := by
    simp [strings.HasPrefix, List.isPrefixOf]
  have hdrop : ("//".toList ++ h ++ "/stream/".toList ++ s).drop 2 = h ++ "/stream/".toList ++ s :=
    rfl
  have htake : (h ++ "/stream/".toList ++ s).take h.length = h := by
    rw [List.append_assoc, List.take_left]
  have hdrop2 : (h ++ "/stream/".toList ++ s).drop h.length = "/stream/".toList ++ s := by
    rw [List.append_assoc, List.drop_left]
  have hne : "https".toList ≠ [] := by decide
  have hfq : (strings.HasSuffix ("//".toList ++ h ++ "/stream/".toList ++ s) ['?']
      && decide (strings.Count ("//".toList ++ h ++ "/stream/".toList ++ s) '?' = 1)) = false := by
    rw [hcount]
    simp
  simp only [Option.bind, hlower, hfq, hcut, hpre1, hpre2, hdrop, hidx, htake, hdrop2, hauth,
    setPath, hunesc, hesc, Option.map, OfNat.zero_ne_ofNat, decide_False, Bool.and_false,
    Bool.false_eq_true, if_false, Bool.not_true, Bool.false_and, ne_eq, hne, not_false_eq_true,
    decide_True, Bool.true_or, Bool.and_self, if_true, Bool.and_true]

theorem Parse_local (h s : GoString) (hh : isHostPort h = true)
    (hs : ∀ c ∈ s, pathByte c = true) :
    Parse ("https://".toList ++ h ++ "/stream/".toList ++ s) =
      some { Scheme := "https".toList, Host := h, Path := "/stream/".toList ++ s } := by
  have hraw := local_bytes h s (isHostPort_mem h hh) hs "https://".toList (by decide)
  have hhash : '#' ∉ "https://".toList ++ h ++ "/stream/".toList ++ s := fun hc =>
    listed_ne _ _ '#' (hraw _ hc) (by decide) (by decide) rfl
  unfold Parse
  simp only [strings.Cut, strings.Index_single_of_not_mem _ _ hhash, parse_local h s hh hs,
    Option.bind, if_true]

theorem String_local (h s : GoString) (hh : isHostPort h = true)
    (hs : ∀ c ∈ s, pathByte c = true) :
    URL.String ({ Scheme := "https".toList, Host := h, Path := "/stream/".toList ++ s } : URL) =
      "https://".toList ++ h ++ "/stream/".toList ++ s := by
  have hesc : escape ("/stream/".toList ++ s) encodePath = "/stream/".toList ++ s := by
    apply escape_of_plain
    intro c hc
    rw [List.mem_append] at hc
    rcases hc with hc | hc
    · revert c
      decide
    · exact listed_shouldEscape _ encodePath (by decide) c (pathByte_listed c (hs c hc))
  have hhost : escape h encodeHost = h := by
    apply escape_of_plain
    intro c hc
    exact listed_shouldEscape _ encodeHost (by decide) c (isHostPort_mem h hh c hc)
  have hpath : URL.EscapedPath
      ({ Scheme := "https".toList, Host := h, Path := "/stream/".toList ++ s } : URL) =
      "/stream/".toList ++ s := by
    unfold URL.EscapedPath
    dsimp only
    rw [if_neg (fun hc => hc.1 rfl), if_neg, hesc]
    intro e
    have := congrArg List.head? e
    simp at this
  unfold URL.String
  simp only [hpath]
  dsimp only
  have hne : "https".toList ≠ [] := by decide
  have hpne : "/stream/".toList ++ s ≠ [] := by
    intro e
    have := congrArg List.head? e
    simp at this
  have hhead : ("/stream/".toList ++ s).head? = some '/' := rfl
  simp only [hne, hpne, hhead, hhost, ne_eq, not_false_eq_true, if_true, true_or, or_true,
    Option.isSome_none, Option.isNone_none, Bool.false_eq_true, false_and, and_false, if_false,
    not_true_eq_false, and_true, or_false, false_or]
  have hh0 : (if ¬ h = [] then h else []) = h := by
    by_cases e : h = []
    · simp [e]
    · simp [e]
  rw [hh0, if_neg (fun hc => by simpa using congrArg List.length hc.1)]
  simp

end url

/-- C2 (the code at the failing input): one authenticated participant arrives at an
empty pending registry and blocks; its context is cancelled and the call returns `nil`
after its deferred `cancel()`. The registry is not empty: it still holds the entry that
the call stored (`Listen` removes its entry on the same path, `Stream` does not). -/
theorem orphaned_entry_remains :
    Stream sampleRouter [] (caller 1) =
      { pending := [("s1".toList, { cancel := 1, stream := 1 })]
        ret := .blocked
        trace := [.tokenReview
          { Token := "https://router.example.com:8083/stream/s1".toList
            Audiences := ["https://router.example.com:8083/stream/s1".toList] }] } ∧
    StreamDone (Stream sampleRouter [] (caller 1)).pending (caller 1) =
      { pending := [("s1".toList, { cancel := 1, stream := 1 })]
        ret := .returned none
        trace := [.cancel 1] } ∧
    (StreamDone (Stream sampleRouter [] (caller 1)).pending (caller 1)).pending.Load "s1".toList
      ≠ none := by
  decide

/-- C10 (counterexample): the second arrival at the sample router, finding the entry of
the first (cancel function 1, stream handle 1): its effects are the token review, then
`Forward` on the two handles, and only then the cancel of the parked entry, followed
by its own; the cancel does not precede `Forward`. -/
theorem second_arrival_cancels_after_forward :
    (Stream sampleRouter [("s1".toList, { cancel := 1, stream := 1 })] (caller 2)).trace =
      [.tokenReview
          { Token := "https://router.example.com:8083/stream/s1".toList
            Audiences := ["https://router.example.com:8083/stream/s1".toList] },
        .forward 2 1, .cancel 1, .cancel 2] ∧
    ¬ ((Stream sampleRouter [("s1".toList, { cancel := 1, stream := 1 })] (caller 2)).trace.indexOf
          (Effect.cancel 1) <
        (Stream sampleRouter [("s1".toList, { cancel := 1, stream := 1 })] (caller 2)).trace.indexOf
          (Effect.forward 2 1)) := by
  decide

/-- C10 (amended): for every second arrival that finds a parked entry for its stream
name, the effects of the call are those of `authenticate` (token reviews, no cancel),
then the invocation of `Forward` on the two stream handles, then, deferred until
`Forward` has returned, the invocation of the parked entry's cancel function, then
the call's own cancel function: `Forward` precedes the cancel of the first arrival. -/
theorem forward_precedes_parked_cancel (env : RouterEnv) (pending : Registry streamContext)
    (call : StreamCall) (sid : GoString) (parked : streamContext)
    (hauth : (authenticate env call.ctx).1 = .ok sid)
    (hparked : pending.Load sid = some parked) :
    (Stream env pending call).trace =
      (authenticate env call.ctx).2 ++
        [.forward call.stream parked.stream, .cancel parked.cancel, .cancel call.cancel] ∧
    (∀ c, Effect.cancel c ∉ (authenticate env call.ctx).2) ∧
    (∀ a b, Effect.forward a b ∉ (authenticate env call.ctx).2) := by
  refine ⟨by rw [Stream_loaded env pending call sid parked hauth hparked], ?_, ?_⟩
  · intro c hc
    rcases authenticate_trace env call.ctx with h | ⟨spec, h⟩ <;> rw [h] at hc <;> simp at hc
  · intro a b hc
    rcases authenticate_trace env call.ctx with h | ⟨spec, h⟩ <;> rw [h] at hc <;> simp at hc

/-- Witness of `forward_precedes_parked_cancel`: the second caller at the sample router. -/
theorem forward_precedes_parked_cancel_witness :
    (Stream sampleRouter [("s1".toList, { cancel := 1, stream := 1 })] (caller 2)).trace =
      (authenticate sampleRouter (caller 2).ctx).2 ++
        [.forward (caller 2).stream 1, .cancel 1, .cancel (caller 2).cancel] ∧
    (∀ c, Effect.cancel c ∉ (authenticate sampleRouter (caller 2).ctx).2) ∧
    (∀ a b, Effect.forward a b ∉ (authenticate sampleRouter (caller 2).ctx).2) :=
  forward_precedes_parked_cancel sampleRouter [("s1".toList, { cancel := 1, stream := 1 })]
    (caller 2) "s1".toList { cancel := 1, stream := 1 } (by decide) (by decide)

theorem contains_eq_true_iff (l : List GoString) (x : GoString) :
    l.contains x = true ↔ x ∈ l := by
  simp [List.contains, List.elem_iff]

theorem matchedAudiences_map (endpoint : GoString) (A : List GoString) :
    (matchedAudiences endpoint A).map some = (localAudiences endpoint A).map url.Parse := by
  induction A with
  | nil => rfl
  | cons a A ih =>
    unfold localAudiences at ih ⊢
    rw [matchedAudiences, List.filter_cons]
    cases hp : url.Parse a with
    | none => simp [isLocalAudience, hp, ih]
    | some aud =>
      by_cases hc : aud.Scheme ≠ "https".toList ∨ aud.Host ≠ endpoint
          ∨ ¬ strings.HasPrefix aud.Path "/stream/".toList = true
      · have hl : isLocalAudience endpoint a = false := by
          simp only [isLocalAudience, hp, decide_eq_false_iff_not]
          intro hh
          rcases hc with hc | hc | hc
          · exact hc hh.1
          · exact hc hh.2.1
          · exact hc hh.2.2
        simp only [hc, if_true, hl]
        exact ih
      · have hl : isLocalAudience endpoint a = true := by
          simp only [isLocalAudience, hp, decide_eq_true_eq]
          simp only [not_or, not_not] at hc
          exact hc
        simp only [hc, if_false, hl, if_true, List.map_cons, ih, hp]

/-- C4 (counterexample): the only audience of the token writes the scheme in upper
case. It is local (`url.Parse` lowers the scheme), the review succeeds, reports
`authenticated`, the tokenholder user name and an audience list containing that very
audience, so the table of the specification yields the stream name `s1`; the code looks
for the audience as `URL.String` writes it (`https://…`) and answers `Unauthenticated`. -/
theorem authenticate_compares_reserialised_audience :
    localAudiences upperCaseRouter.routerEndpoint
        ["HTTPS://router.example.com:8083/stream/s1".toList]
      = ["HTTPS://router.example.com:8083/stream/s1".toList] ∧
    decisionTable upperCaseRouter.routerEndpoint
        ["HTTPS://router.example.com:8083/stream/s1".toList]
        (upperCaseRouter.CreateTokenReview
          { Token := "token".toList
            Audiences := ["https://router.example.com:8083/stream/s1".toList] })
      = .ok "s1".toList ∧
    authenticate upperCaseRouter 0 =
      (.error (Errorf .Unauthenticated "unauthenticated jwt token"),
        [.tokenReview
          { Token := "token".toList
            Audiences := ["https://router.example.com:8083/stream/s1".toList] }]) := by
  decide

/-- C4 (amended): for every bearer token that parses as a JWT with audience list `A`
and every token-review outcome, with `L` the audiences of `A` that parse as URLs with
scheme `https`, host equal to `routerEndpoint` and path beginning with `/stream/`: if
`L` has not exactly one element the result is an `InvalidArgument` error and the
token-review oracle is not consulted; otherwise, with `a` the single element of `L`,
the oracle is consulted once, with the token and the audience `a` as `URL.String`
writes it again, and the result is the path suffix of `a` after `/stream/` exactly when
the review succeeds and reports `authenticated`, the tokenholder user name, and a
returned audience list containing that re-serialised `a`; in every other case the
result is an `Unauthenticated` error. -/
theorem authenticate_decision_table (env : RouterEnv) (ctx : Context) (token : GoString)
    (A : List GoString) (htok : env.BearerTokenFromContext ctx = .ok token)
    (hjwt : env.ParseUnverified token = some { GetAudience := some A }) :
    ((localAudiences env.routerEndpoint A).length ≠ 1 →
      codeOf (authenticate env ctx).1 = .error .InvalidArgument ∧
      (authenticate env ctx).2 = []) ∧
    (∀ a, localAudiences env.routerEndpoint A = [a] →
      (authenticate env ctx).2 =
        [.tokenReview { Token := token, Audiences := [reserialised a] }] ∧
      codeOf (authenticate env ctx).1 =
        decisionTableWith reserialised env.routerEndpoint A
          (env.CreateTokenReview { Token := token, Audiences := [reserialised a] })) := by
  have hmap := matchedAudiences_map env.routerEndpoint A
  constructor
  · intro hlen
    have hlen' : (matchedAudiences env.routerEndpoint A).length ≠ 1 := by
      have := congrArg List.length hmap
      simp only [List.length_map] at this
      rw [this]
      exact hlen
    unfold authenticate
    simp only [htok, hjwt]
    split
    · rename_i audience heq
      rw [heq] at hlen'
      exact absurd rfl hlen'
    · exact ⟨rfl, rfl⟩
  · intro a ha
    rw [ha] at hmap
    obtain ⟨aud, hm, hp⟩ : ∃ aud, matchedAudiences env.routerEndpoint A = [aud] ∧
        url.Parse a = some aud := by
      cases hM : matchedAudiences env.routerEndpoint A with
      | nil => rw [hM] at hmap; simp at hmap
      | cons aud rest =>
        rw [hM] at hmap
        simp only [List.map_cons, List.map_nil, List.cons.injEq, List.map_eq_nil_iff] at hmap
        exact ⟨aud, by rw [hmap.2], hmap.1.symm⟩
    have hre : reserialised a = aud.String := by simp [reserialised, hp]
    have hsuf : pathSuffix a = strings.TrimPrefix aud.Path "/stream/".toList := by
      simp [pathSuffix, hp]
    unfold authenticate decisionTableWith
    simp only [htok, hjwt, hm, ha, hre, hsuf]
    cases hrev : env.CreateTokenReview { Token := token, Audiences := [aud.String] } with
    | none => exact ⟨rfl, rfl⟩
    | some status =>
      simp only
      by_cases hc : status.Authenticated = true ∧ status.Username = tokenholderUsername
          ∧ aud.String ∈ status.Audiences
      · have hcode : ¬ ((!status.Authenticated) = true ∨ status.Username ≠ tokenholderUsername
            ∨ ¬ status.Audiences.contains aud.String = true) := by
          simp only [not_or, not_not, Bool.not_eq_true', Bool.not_eq_false, ne_eq,
            contains_eq_true_iff]
          exact hc
        rw [if_neg hcode, if_pos hc]
        exact ⟨rfl, rfl⟩
      · have hcode : (!status.Authenticated) = true ∨ status.Username ≠ tokenholderUsername
            ∨ ¬ status.Audiences.contains aud.String = true := by
          by_contra hn
          apply hc
          simp only [not_or, not_not, Bool.not_eq_true', Bool.not_eq_false, ne_eq,
            contains_eq_true_iff] at hn
          exact hn
        rw [if_pos hcode, if_neg hc]
        exact ⟨rfl, rfl⟩

/-- Witness of `authenticate_decision_table`: the sample router, whose token has the
one local audience `https://router.example.com:8083/stream/s1`. -/
theorem authenticate_decision_table_witness :
    sampleRouter.BearerTokenFromContext 0
      = .ok "https://router.example.com:8083/stream/s1".toList ∧
    localAudiences sampleRouter.routerEndpoint
      ["https://router.example.com:8083/stream/s1".toList]
      = ["https://router.example.com:8083/stream/s1".toList] ∧
    (authenticate sampleRouter 0).2 =
      [.tokenReview { Token := "https://router.example.com:8083/stream/s1".toList
                      Audiences :=
                        [reserialised "https://router.example.com:8083/stream/s1".toList] }] ∧
    codeOf (authenticate sampleRouter 0).1 =
      decisionTableWith reserialised sampleRouter.routerEndpoint
        ["https://router.example.com:8083/stream/s1".toList]
        (sampleRouter.CreateTokenReview
          { Token := "https://router.example.com:8083/stream/s1".toList
            Audiences := [reserialised "https://router.example.com:8083/stream/s1".toList] }) :=
  ⟨rfl, by decide,
    (authenticate_decision_table sampleRouter 0
      "https://router.example.com:8083/stream/s1".toList
      ["https://router.example.com:8083/stream/s1".toList] rfl rfl).2
      "https://router.example.com:8083/stream/s1".toList (by decide)⟩

theorem matchCredentials_readable (cluster : Cluster) (token : GoString)
    (refs : List NamespacedName) (hread : ∀ ref ∈ refs, cluster.secrets ref ≠ none) :
    matchCredentials cluster token refs = .ok (credentialMatches cluster token refs) := by
  induction refs with
  | nil => rfl
  | cons ref refs ih =>
    have hr := hread ref (List.mem_cons_self _ _)
    have ih' := ih (fun r hr' => hread r (List.mem_cons_of_mem _ hr'))
    unfold credentialMatches at ih' ⊢
    cases hs : cluster.secrets ref with
    | none => exact absurd hs hr
    | some secret =>
      cases hl : secret.Data.lookup "token".toList with
      | none =>
        simp only [matchCredentials, secretMatches, hs, hl, ih', List.any_cons]
        simp
      | some reference =>
        by_cases he : reference = token
        · simp only [matchCredentials, secretMatches, hs, hl, he, List.any_cons, if_true]
          simp
        · simp only [matchCredentials, secretMatches, hs, hl, he, ih', List.any_cons, if_false]
          simp [he]

theorem matchCredentials_ok_true (cluster : Cluster) (token : GoString)
    (refs : List NamespacedName) :
    matchCredentials cluster token refs = .ok true ↔
      ∃ pre ref post, refs = pre ++ ref :: post ∧ secretMatches cluster token ref = true ∧
        ∀ r ∈ pre, cluster.secrets r ≠ none := by
  induction refs with
  | nil => simp [matchCredentials]
  | cons ref refs ih =>
    cases hs : cluster.secrets ref with
    | none =>
      simp only [matchCredentials, hs]
      constructor
      · intro h; cases h
      · rintro ⟨pre, r, post, hsplit, hm, hpre⟩
        cases pre with
        | nil =>
          simp only [List.nil_append, List.cons.injEq] at hsplit
          rw [← hsplit.1] at hm
          simp [secretMatches, hs] at hm
        | cons p pre =>
          simp only [List.cons_append, List.cons.injEq] at hsplit
          exact absurd (hsplit.1 ▸ hs) (hpre p (List.mem_cons_self _ _))
    | some secret =>
      have hmatch : secretMatches cluster token ref
          = decide (secret.Data.lookup "token".toList = some token) := by
        simp only [secretMatches, hs]
      by_cases he : secret.Data.lookup "token".toList = some token
      · have : matchCredentials cluster token (ref :: refs) = .ok true := by
          simp only [matchCredentials, hs, he, if_true]
        rw [this]
        simp only [true_iff]
        exact ⟨[], ref, refs, rfl, by rw [hmatch]; exact decide_eq_true he, by simp⟩
      · have : matchCredentials cluster token (ref :: refs)
            = matchCredentials cluster token refs := by
          simp only [matchCredentials, hs]
          cases hl : secret.Data.lookup "token".toList with
          | none => rfl
          | some reference =>
            have : reference ≠ token := fun e => he (by rw [hl, e])
            simp only [this, if_false]
        rw [this, ih]
        constructor
        · rintro ⟨pre, r, post, hsplit, hm, hpre⟩
          refine ⟨ref :: pre, r, post, by rw [hsplit]; rfl, hm, ?_⟩
          intro x hx
          rcases List.mem_cons.1 hx with rfl | hx
          · rw [hs]; simp
          · exact hpre x hx
        · rintro ⟨pre, r, post, hsplit, hm, hpre⟩
          cases pre with
          | nil =>
            simp only [List.nil_append, List.cons.injEq] at hsplit
            rw [← hsplit.1, hmatch] at hm
            exact absurd (of_decide_eq_true hm) he
          | cons p pre =>
            simp only [List.cons_append, List.cons.injEq] at hsplit
            exact ⟨pre, r, post, hsplit.2, hm,
              fun x hx => hpre x (List.mem_cons_of_mem _ hx)⟩

theorem authenticateExporter_of_principal (env : ControllerEnv) (cluster : Cluster)
    (ctx : Context) (token : bearerToken) (exporter : Exporter)
    (hpre : authenticatePre env ctx = .ok token)
    (hget : cluster.exporters { Namespace := token.Namespace, Name := token.Name }
      = some exporter) :
    authenticateExporter env cluster ctx =
      match matchCredentials cluster token.Token exporter.Credentials with
      | .error err => .error err
      | .ok true => .ok exporter
      | .ok false => .error (Errorf .Unauthenticated "no matching credential") := by
  unfold authenticateExporter
  simp only [hpre, hget]

theorem authenticateIdentity_of_principal (env : ControllerEnv) (cluster : Cluster)
    (ctx : Context) (token : bearerToken) (identity : Identity)
    (hpre : authenticatePre env ctx = .ok token)
    (hget : cluster.identities { Namespace := token.Namespace, Name := token.Name }
      = some identity) :
    authenticateIdentity env cluster ctx =
      match matchCredentials cluster token.Token identity.Credentials with
      | .error err => .error err
      | .ok true => .ok identity
      | .ok false => .error (Errorf .Unauthenticated "no matching credential") := by
  unfold authenticateIdentity
  simp only [hpre, hget]

/-- The verdict of the principal-bearer loop, for a principal of either kind. -/
theorem credential_verdict {P : Type} (cluster : Cluster) (token : GoString)
    (refs : List NamespacedName) (principal : P) (result : Except GoError P)
    (hres : result =
      match matchCredentials cluster token refs with
      | .error err => .error err
      | .ok true => .ok principal
      | .ok false => .error (Errorf .Unauthenticated "no matching credential")) :
    (result = .ok principal ↔
      ∃ pre ref post, refs = pre ++ ref :: post ∧ secretMatches cluster token ref = true ∧
        ∀ r ∈ pre, cluster.secrets r ≠ none) ∧
    ((∀ ref ∈ refs, cluster.secrets ref ≠ none) →
      (result = .ok principal ↔ credentialMatches cluster token refs = true) ∧
      (credentialMatches cluster token refs = false →
        result = .error (Errorf .Unauthenticated "no matching credential"))) := by
  have hiff : result = .ok principal ↔ matchCredentials cluster token refs = .ok true := by
    rw [hres]
    cases hm : matchCredentials cluster token refs with
    | error err => simp
    | ok b => cases b <;> simp
  refine ⟨hiff.trans (matchCredentials_ok_true cluster token refs), ?_⟩
  intro hread
  have hm := matchCredentials_readable cluster token refs hread
  refine ⟨?_, ?_⟩
  · rw [hiff, hm]
    simp
  · intro hno
    rw [hres, hm, hno]

/-- C5 (counterexample): the exporter `default/exporter-01` and the client
`default/client-01` exist, each presents a well-formed credential, and each has a
credential reference to a secret whose `token` equals the presented token; their first
credential reference names a secret that cannot be read, and authentication fails with
an `Internal` error instead of succeeding. -/
theorem unreadable_secret_before_match :
    authenticatePre sampleController 1 =
      .ok { Namespace := "default".toList, Name := "exporter-01".toList,
            Token := "s3cret".toList } ∧
    (lostSecretCluster.exporters
      { Namespace := "default".toList, Name := "exporter-01".toList }).isSome = true ∧
    secretMatches lostSecretCluster "s3cret".toList
      { Namespace := "default".toList, Name := "exporter-secret".toList } = true ∧
    authenticateExporter sampleController lostSecretCluster 1 =
      .error (Errorf .Internal "unable to get secret resource") ∧
    (lostSecretCluster.identities
      { Namespace := "default".toList, Name := "client-01".toList }).isSome = true ∧
    secretMatches lostSecretCluster "hunter2".toList
      { Namespace := "default".toList, Name := "client-secret".toList } = true ∧
    authenticateIdentity sampleController lostSecretCluster 2 =
      .error (Errorf .Internal "unable to get secret resource") := by
  decide

/-- C5 (amended): for every well-formed bearer credential `{namespace, name, token}`
whose named principal (exporter or client identity) exists in the directory,
authentication succeeds, returning the principal, if and only if a credential
reference of that principal points to a secret whose `token` field equals the presented
token and every credential reference before it points to a secret that can be read.
When every referenced secret can be read, authentication succeeds if and only if at
least one credential matches, and when none matches the result is the `Unauthenticated`
error "no matching credential". -/
theorem principal_bearer_authentication (env : ControllerEnv) (cluster : Cluster)
    (ctx : Context) (token : bearerToken) (hpre : authenticatePre env ctx = .ok token) :
    (∀ exporter : Exporter,
      cluster.exporters { Namespace := token.Namespace, Name := token.Name } = some exporter →
      (authenticateExporter env cluster ctx = .ok exporter ↔
        ∃ pre ref post, exporter.Credentials = pre ++ ref :: post ∧
          secretMatches cluster token.Token ref = true ∧ ∀ r ∈ pre, cluster.secrets r ≠ none) ∧
      ((∀ ref ∈ exporter.Credentials, cluster.secrets ref ≠ none) →
        (authenticateExporter env cluster ctx = .ok exporter ↔
          credentialMatches cluster token.Token exporter.Credentials = true) ∧
        (credentialMatches cluster token.Token exporter.Credentials = false →
          authenticateExporter env cluster ctx =
            .error (Errorf .Unauthenticated "no matching credential")))) ∧
    (∀ identity : Identity,
      cluster.identities { Namespace := token.Namespace, Name := token.Name } = some identity →
      (authenticateIdentity env cluster ctx = .ok identity ↔
        ∃ pre ref post, identity.Credentials = pre ++ ref :: post ∧
          secretMatches cluster token.Token ref = true ∧ ∀ r ∈ pre, cluster.secrets r ≠ none) ∧
      ((∀ ref ∈ identity.Credentials, cluster.secrets ref ≠ none) →
        (authenticateIdentity env cluster ctx = .ok identity ↔
          credentialMatches cluster token.Token identity.Credentials = true) ∧
        (credentialMatches cluster token.Token identity.Credentials = false →
          authenticateIdentity env cluster ctx =
            .error (Errorf .Unauthenticated "no matching credential")))) :=
  ⟨fun exporter hget => credential_verdict cluster token.Token exporter.Credentials exporter _
      (authenticateExporter_of_principal env cluster ctx token exporter hpre hget),
    fun identity hget => credential_verdict cluster token.Token identity.Credentials identity _
      (authenticateIdentity_of_principal env cluster ctx token identity hpre hget)⟩

/-- Witness of `principal_bearer_authentication`: the exporter of the sample directory,
whose two secrets can be read. -/
theorem principal_bearer_authentication_witness :
    authenticatePre sampleController 1 =
      .ok { Namespace := "default".toList, Name := "exporter-01".toList,
            Token := "s3cret".toList } ∧
    (authenticateExporter sampleController sampleCluster 1 =
        .ok { Namespace := "default".toList, Name := "exporter-01".toList, Generation := 1,
              Credentials :=
                [{ Namespace := "default".toList, Name := "exporter-secret".toList },
                  { Namespace := "default".toList, Name := "client-secret".toList }],
              Status := { Conditions := [], Devices := [] } } ↔
      credentialMatches sampleCluster "s3cret".toList
        [{ Namespace := "default".toList, Name := "exporter-secret".toList },
          { Namespace := "default".toList, Name := "client-secret".toList }] = true) :=
  ⟨by decide,
    (((principal_bearer_authentication sampleController sampleCluster 1
      { Namespace := "default".toList, Name := "exporter-01".toList, Token := "s3cret".toList }
      (by decide)).1
      { Namespace := "default".toList, Name := "exporter-01".toList, Generation := 1,
        Credentials := [{ Namespace := "default".toList, Name := "exporter-secret".toList },
          { Namespace := "default".toList, Name := "client-secret".toList }],
        Status := { Conditions := [], Devices := [] } }
      (by decide)).2 (by decide)).1⟩

/-- C6: for every authenticated exporter and every listen registry that already holds
an entry under the exporter's name, a further `Listen` call returns the `AlreadyExists`
error; the registry it leaves is the registry it found, which still maps the name to
the first caller's entry; and the only cancel function invoked is the rejected call's
own, so the first caller's cancel function has not been invoked. -/
theorem duplicate_listen_rejected (env : ControllerEnv) (cluster : Cluster)
    (listen : Registry listenContext) (call : ListenCall) (exporter : Exporter)
    (first : listenContext)
    (hauth : authenticateExporter env cluster call.ctx = .ok exporter)
    (hfirst : listen.Load exporter.Name = some first) :
    Listen env cluster listen call =
      { listen := listen
        ret := .returned (some (Errorf .AlreadyExists "exporter is already listening"))
        trace := [.cancel call.cancel] } ∧
    (Listen env cluster listen call).listen.Load exporter.Name = some first ∧
    (first.cancel ≠ call.cancel →
      Effect.cancel first.cancel ∉ (Listen env cluster listen call).trace) := by
  have hL : Listen env cluster listen call =
      { listen := listen
        ret := .returned (some (Errorf .AlreadyExists "exporter is already listening"))
        trace := [.cancel call.cancel] } := by
    unfold Listen
    simp only [Registry.Load] at hfirst
    simp only [hauth, Registry.LoadOrStore, hfirst]
  rw [hL]
  refine ⟨rfl, hfirst, ?_⟩
  intro hne hmem
  simp only [List.mem_singleton, Effect.cancel.injEq] at hmem
  exact hne hmem

/-- Witness of `duplicate_listen_rejected`: the sample exporter calls `Listen` while the
registry holds its entry. -/
theorem duplicate_listen_rejected_witness :
    Listen sampleController sampleCluster
        [("exporter-01".toList, { cancel := 7, stream := 7 })]
        { stream := 8, ctx := 1, cancel := 8 } =
      { listen := [("exporter-01".toList, { cancel := 7, stream := 7 })]
        ret := .returned (some (Errorf .AlreadyExists "exporter is already listening"))
        trace := [.cancel 8] } :=
  (duplicate_listen_rejected sampleController sampleCluster
    [("exporter-01".toList, { cancel := 7, stream := 7 })]
    { stream := 8, ctx := 1, cancel := 8 }
    { Namespace := "default".toList, Name := "exporter-01".toList, Generation := 1,
      Credentials := [{ Namespace := "default".toList, Name := "exporter-secret".toList },
        { Namespace := "default".toList, Name := "client-secret".toList }],
      Status := { Conditions := [], Devices := [] } }
    { cancel := 7, stream := 7 } (by decide) (by decide)).1

/-- C7: for every authenticated client identity and every target id with no entry in
the listen registry, `Dial` fails with the `Unavailable` error "no matching listener",
with an empty effect trace (no token request reaches the token oracle, no message is
sent on any `Listen` stream) and the listen registry unchanged. -/
theorem dial_unknown_target (env : ControllerEnv) (cluster : Cluster)
    (listen : Registry listenContext) (ctx : Context) (req : DialRequest)
    (identity : Identity) (hauth : authenticateIdentity env cluster ctx = .ok identity)
    (hnone : listen.Load req.Uuid = none) :
    Dial env cluster listen ctx req =
      { listen := listen
        ret := .error (Errorf .Unavailable "no matching listener")
        trace := [] } := by
  unfold Dial
  simp only [hauth, hnone]

/-- Witness of `dial_unknown_target`: the sample client dials `E-missing`. -/
theorem dial_unknown_target_witness :
    Dial sampleController sampleCluster
        [("exporter-01".toList, { cancel := 7, stream := 7 })] 2
        { Uuid := "E-missing".toList } =
      { listen := [("exporter-01".toList, { cancel := 7, stream := 7 })]
        ret := .error (Errorf .Unavailable "no matching listener")
        trace := [] } :=
  dial_unknown_target sampleController sampleCluster
    [("exporter-01".toList, { cancel := 7, stream := 7 })] 2
    { Uuid := "E-missing".toList }
    { Namespace := "default".toList, Name := "client-01".toList,
      Credentials := [{ Namespace := "default".toList, Name := "exporter-secret".toList },
        { Namespace := "default".toList, Name := "client-secret".toList }] }
    (by decide) (by decide)

/-- A successful `Dial`: the entry it found, the token it was issued, its effects and
the pair it returns. -/
theorem Dial_ok (env : ControllerEnv) (cluster : Cluster)
    (listen : Registry listenContext) (ctx : Context) (req : DialRequest) (resp : DialResponse)
    (hret : (Dial env cluster listen ctx req).ret = .ok resp) :
    ∃ value tokenholder token,
      listen.Load req.Uuid = some value ∧
      cluster.serviceAccounts
        { Namespace := nameSpace, Name := namePrefix ++ "tokenholder".toList }
        = some tokenholder ∧
      env.CreateToken tokenholder
        (tokenRequestFor (dialAudience env.routerEndpoint env.NewUUID)) = .ok token ∧
      (Dial env cluster listen ctx req).trace =
        [.tokenRequest (tokenRequestFor (dialAudience env.routerEndpoint env.NewUUID)),
          .send value.stream { RouterEndpoint := env.routerEndpoint, RouterToken := token }] ∧
      resp = { RouterEndpoint := env.routerEndpoint, RouterToken := token } ∧
      (Dial env cluster listen ctx req).listen = listen := by
  unfold Dial at hret ⊢
  cases hauth : authenticateIdentity env cluster ctx with
  | error err => simp only [hauth, reduceCtorEq] at hret
  | ok identity =>
    cases hload : listen.Load req.Uuid with
    | none => simp only [hauth, hload, reduceCtorEq] at hret
    | some value =>
      cases hsa : cluster.serviceAccounts
          { Namespace := nameSpace, Name := namePrefix ++ "tokenholder".toList } with
      | none => simp only [hauth, hload, hsa, reduceCtorEq] at hret
      | some tokenholder =>
        cases htok : env.CreateToken tokenholder
            (tokenRequestFor (dialAudience env.routerEndpoint env.NewUUID)) with
        | error err => simp only [hauth, hload, hsa, htok, reduceCtorEq] at hret
        | ok token =>
          cases hsend : env.Send value.stream
              { RouterEndpoint := env.routerEndpoint, RouterToken := token } with
          | some err => simp only [hauth, hload, hsa, htok, hsend, reduceCtorEq] at hret
          | none =>
            simp only [hauth, hload, hsa, htok, hsend, Except.ok.injEq] at hret ⊢
            exact ⟨value, tokenholder, token, rfl, rfl, htok, rfl, hret.symm, trivial⟩

/-- A `Dial` whose `Send` fails returns the send error. -/
theorem Dial_send_error (env : ControllerEnv) (cluster : Cluster)
    (listen : Registry listenContext) (ctx : Context) (req : DialRequest)
    (identity : Identity) (value : listenContext) (tokenholder : ServiceAccount)
    (token : GoString) (err : GoError)
    (hauth : authenticateIdentity env cluster ctx = .ok identity)
    (hload : listen.Load req.Uuid = some value)
    (hsa : cluster.serviceAccounts
      { Namespace := nameSpace, Name := namePrefix ++ "tokenholder".toList } = some tokenholder)
    (htok : env.CreateToken tokenholder
      (tokenRequestFor (dialAudience env.routerEndpoint env.NewUUID)) = .ok token)
    (hsend : env.Send value.stream { RouterEndpoint := env.routerEndpoint, RouterToken := token }
      = some err) :
    (Dial env cluster listen ctx req).ret = .error err := by
  unfold Dial
  simp only [hauth, hload, hsa, htok, hsend]

/-- Every token request of a `Dial` is the one for the audience of its stream. -/
theorem Dial_tokenRequest (env : ControllerEnv) (cluster : Cluster)
    (listen : Registry listenContext) (ctx : Context) (req : DialRequest) (treq : TokenRequest)
    (hmem : Effect.tokenRequest treq ∈ (Dial env cluster listen ctx req).trace) :
    treq = tokenRequestFor (dialAudience env.routerEndpoint env.NewUUID) := by
  unfold Dial at hmem
  cases hauth : authenticateIdentity env cluster ctx with
  | error err => simp only [hauth, List.not_mem_nil] at hmem
  | ok identity =>
    cases hload : listen.Load req.Uuid with
    | none => simp only [hauth, hload, List.not_mem_nil] at hmem
    | some value =>
      cases hsa : cluster.serviceAccounts
          { Namespace := nameSpace, Name := namePrefix ++ "tokenholder".toList } with
      | none => simp only [hauth, hload, hsa, List.not_mem_nil] at hmem
      | some tokenholder =>
        cases htok : env.CreateToken tokenholder
            (tokenRequestFor (dialAudience env.routerEndpoint env.NewUUID)) with
        | error err =>
          simp only [hauth, hload, hsa, htok, List.mem_singleton, Effect.tokenRequest.injEq]
            at hmem
          exact hmem
        | ok token =>
          cases hsend : env.Send value.stream
              { RouterEndpoint := env.routerEndpoint, RouterToken := token } <;>
            simp only [hauth, hload, hsa, htok, hsend, List.mem_cons, reduceCtorEq, or_false,
              Effect.tokenRequest.injEq, List.mem_singleton, List.not_mem_nil] at hmem <;>
            exact hmem

/-- C3 (counterexample): the router endpoint `[fe80::1%en0]:8083`, an IPv6 literal with
a zone, and a port. The audience list that `Dial` requests is not
`["https://<h>/stream/<s>"]`: `URL.String` writes the `%` of the zone as `%25`. The text
`https://<h>/stream/<s>` itself is not a local audience for the router at the same
endpoint (`url.Parse` rejects the escape `%en`), and `authenticate` rejects a token that
carries it with `InvalidArgument`. -/
theorem audience_of_zoned_host :
    (Dial (controllerAt "[fe80::1%en0]:8083".toList) sampleCluster
        [("exporter-01".toList, { cancel := 7, stream := 7 })] 2
        { Uuid := "exporter-01".toList }).trace =
      [.tokenRequest
          { Namespace := nameSpace, Name := namePrefix ++ "tokenholder".toList,
            Audiences :=
              ["https://[fe80::1%25en0]:8083/stream/7c9e6679-7425-40de-944b-e07fc1f90ae7".toList],
            ExpirationSeconds := 3600 },
        .send 7 { RouterEndpoint := "[fe80::1%en0]:8083".toList,
                  RouterToken := "signed-token".toList }] ∧
    ["https://[fe80::1%25en0]:8083/stream/7c9e6679-7425-40de-944b-e07fc1f90ae7".toList] ≠
      ["https://".toList ++ "[fe80::1%en0]:8083".toList ++ "/stream/".toList
        ++ "7c9e6679-7425-40de-944b-e07fc1f90ae7".toList] ∧
    matchedAudiences "[fe80::1%en0]:8083".toList
      ["https://".toList ++ "[fe80::1%en0]:8083".toList ++ "/stream/".toList
        ++ "7c9e6679-7425-40de-944b-e07fc1f90ae7".toList] = [] ∧
    authenticate
        (routerAt "[fe80::1%en0]:8083".toList "7c9e6679-7425-40de-944b-e07fc1f90ae7".toList) 0 =
      (.error (Errorf .InvalidArgument "invalid number of local jwt audience"), []) := by
  decide

/-- C3 (amended): for every router endpoint `h` that is a `host[:port]` written without
percent-escapes (a registered name of unreserved bytes and sub-delimiters, or a
bracketed IP literal, with an optional port of digits) and every stream id `s` that
`Dial` generates from bytes a path carries unescaped (every UUID string is one): each
token request of a `Dial` at that endpoint asks for the audience list
`["https://h/stream/s"]`, and a `Dial` that succeeds has made one; the router's filter
for the same endpoint keeps exactly one URL of that list, with scheme `https`, host `h`
and a path that begins with `/stream/`, whose path without the prefix `/stream/` is
`s`; and for a token that carries that list `authenticate` submits that audience to
the token review, returns no value but `s`, and returns `s` when the review accepts. -/
theorem capability_binding (cenv : ControllerEnv) (renv : RouterEnv) (cluster : Cluster)
    (listen : Registry listenContext) (ctx : Context) (req : DialRequest) (rctx : Context)
    (token : GoString)
    (hhost : isHostPort cenv.routerEndpoint = true)
    (huuid : cenv.NewUUID.all pathByte = true)
    (hep : renv.routerEndpoint = cenv.routerEndpoint)
    (htok : renv.BearerTokenFromContext rctx = .ok token)
    (hjwt : renv.ParseUnverified token =
      some { GetAudience := some
              ["https://".toList ++ cenv.routerEndpoint ++ "/stream/".toList ++ cenv.NewUUID] }) :
    (∀ treq, Effect.tokenRequest treq ∈ (Dial cenv cluster listen ctx req).trace →
      treq.Audiences =
        ["https://".toList ++ cenv.routerEndpoint ++ "/stream/".toList ++ cenv.NewUUID]) ∧
    (∀ resp, (Dial cenv cluster listen ctx req).ret = .ok resp →
      ∃ treq, Effect.tokenRequest treq ∈ (Dial cenv cluster listen ctx req).trace) ∧
    (∃ aud, matchedAudiences renv.routerEndpoint
        ["https://".toList ++ cenv.routerEndpoint ++ "/stream/".toList ++ cenv.NewUUID]
        = [aud] ∧
      aud.Scheme = "https".toList ∧ aud.Host = renv.routerEndpoint ∧
      strings.HasPrefix aud.Path "/stream/".toList = true ∧
      strings.TrimPrefix aud.Path "/stream/".toList = cenv.NewUUID) ∧
    (authenticate renv rctx).2 =
      [.tokenReview
        { Token := token
          Audiences :=
            ["https://".toList ++ cenv.routerEndpoint ++ "/stream/".toList ++ cenv.NewUUID] }] ∧
    (∀ v, (authenticate renv rctx).1 = .ok v → v = cenv.NewUUID) ∧
    (∀ status,
      renv.CreateTokenReview
        { Token := token
          Audiences :=
            ["https://".toList ++ cenv.routerEndpoint ++ "/stream/".toList ++ cenv.NewUUID] }
        = some status →
      status.Authenticated = true → status.Username = tokenholderUsername →
      "https://".toList ++ cenv.routerEndpoint ++ "/stream/".toList ++ cenv.NewUUID
        ∈ status.Audiences →
      (authenticate renv rctx).1 = .ok cenv.NewUUID) := by
  have hs : ∀ c ∈ cenv.NewUUID, pathByte c = true := List.all_eq_true.1 huuid
  have hstr : dialAudience cenv.routerEndpoint cenv.NewUUID =
      "https://".toList ++ cenv.routerEndpoint ++ "/stream/".toList ++ cenv.NewUUID :=
    url.String_local cenv.routerEndpoint cenv.NewUUID hhost hs
  have hpre : strings.HasPrefix ("/stream/".toList ++ cenv.NewUUID) "/stream/".toList = true := by
    simp [strings.HasPrefix]
  have htrim : strings.TrimPrefix ("/stream/".toList ++ cenv.NewUUID) "/stream/".toList
      = cenv.NewUUID := by
    unfold strings.TrimPrefix
    rw [if_pos hpre]
    exact List.drop_left _ _
  have hmatch : matchedAudiences renv.routerEndpoint
      ["https://".toList ++ cenv.routerEndpoint ++ "/stream/".toList ++ cenv.NewUUID] =
      [({ Scheme := "https".toList, Host := cenv.routerEndpoint,
          Path := "/stream/".toList ++ cenv.NewUUID } : url.URL)] := by
    rw [hep]
    simp only [matchedAudiences, url.Parse_local cenv.routerEndpoint cenv.NewUUID hhost hs]
    rw [if_neg]
    rintro (hc | hc | hc)
    · exact hc rfl
    · exact hc rfl
    · exact hc hpre
  have haudstr : url.URL.String
      ({ Scheme := "https".toList, Host := cenv.routerEndpoint,
         Path := "/stream/".toList ++ cenv.NewUUID } : url.URL) =
      "https://".toList ++ cenv.routerEndpoint ++ "/stream/".toList ++ cenv.NewUUID := hstr
  refine ⟨?_, ?_, ?_, ?_, ?_, ?_⟩
  · intro treq hmem
    rw [Dial_tokenRequest cenv cluster listen ctx req treq hmem]
    simp only [tokenRequestFor, hstr]
  · intro resp hret
    obtain ⟨value, tokenholder, tok, _, _, _, htrace, _, _⟩ :=
      Dial_ok cenv cluster listen ctx req resp hret
    exact ⟨_, by rw [htrace]; exact List.mem_cons_self _ _⟩
  · exact ⟨_, hmatch, rfl, hep.symm, hpre, htrim⟩
  · unfold authenticate
    simp only [htok, hjwt, hmatch, haudstr]
    cases hrev : renv.CreateTokenReview
        { Token := token
          Audiences :=
            ["https://".toList ++ cenv.routerEndpoint ++ "/stream/".toList ++ cenv.NewUUID] } with
    | none => rfl
    | some status =>
      simp only
      split <;> rfl
  · intro v hv
    unfold authenticate at hv
    simp only [htok, hjwt, hmatch, haudstr] at hv
    cases hrev : renv.CreateTokenReview
        { Token := token
          Audiences :=
            ["https://".toList ++ cenv.routerEndpoint ++ "/stream/".toList ++ cenv.NewUUID] } with
    | none => simp only [hrev, reduceCtorEq] at hv
    | some status =>
      simp only [hrev] at hv
      split at hv
      · simp only [reduceCtorEq] at hv
      · simp only [Except.ok.injEq] at hv
        rw [← hv]
        exact htrim
  · intro status hrev hauth huser hmem
    unfold authenticate
    simp only [htok, hjwt, hmatch, haudstr, hrev]
    rw [if_neg]
    · simp only [htrim]
    · simp only [not_or, not_not, Bool.not_eq_true', ne_eq, contains_eq_true_iff]
      exact ⟨by rw [hauth]; decide, huser, hmem⟩

/-- Witness of `capability_binding`: the endpoint `[::1]:8083`, and the endpoint
`router+eu.example.com:8083`, with the UUID of the sample controller. -/
theorem capability_binding_witness :
    (authenticate
        (routerAt "[::1]:8083".toList "7c9e6679-7425-40de-944b-e07fc1f90ae7".toList) 0).1 =
      .ok "7c9e6679-7425-40de-944b-e07fc1f90ae7".toList ∧
    (∀ treq, Effect.tokenRequest treq ∈
        (Dial (controllerAt "router+eu.example.com:8083".toList) sampleCluster
          [("exporter-01".toList, { cancel := 7, stream := 7 })] 2
          { Uuid := "exporter-01".toList }).trace →
      treq.Audiences =
        ["https://".toList ++ (controllerAt "router+eu.example.com:8083".toList).routerEndpoint
          ++ "/stream/".toList ++ (controllerAt "router+eu.example.com:8083".toList).NewUUID]) :=
  ⟨(capability_binding (controllerAt "[::1]:8083".toList)
      (routerAt "[::1]:8083".toList "7c9e6679-7425-40de-944b-e07fc1f90ae7".toList)
      sampleCluster [("exporter-01".toList, { cancel := 7, stream := 7 })] 2
      { Uuid := "exporter-01".toList } 0 "signed-token".toList
      (by decide) (by decide) rfl rfl rfl).2.2.2.2.2
      { Authenticated := true, Username := tokenholderUsername,
        Audiences := ["https://".toList ++ "[::1]:8083".toList ++ "/stream/".toList
          ++ "7c9e6679-7425-40de-944b-e07fc1f90ae7".toList] }
      rfl rfl rfl (by decide),
    (capability_binding (controllerAt "router+eu.example.com:8083".toList)
      (routerAt "router+eu.example.com:8083".toList
        "7c9e6679-7425-40de-944b-e07fc1f90ae7".toList)
      sampleCluster [("exporter-01".toList, { cancel := 7, stream := 7 })] 2
      { Uuid := "exporter-01".toList } 0 "signed-token".toList
      (by decide) (by decide) rfl rfl rfl).1⟩

/-- C8 (counterexample): at the router endpoint `[fe80::1%en0]:8083` (an IPv6 literal with
a zone) and at the endpoint `router.example.com/eu`, `Dial` returns success and hands
the same pair to both sides, but the single audience for which the token was issued is
not the text `https://<routerEndpoint>/stream/<streamId>`: `URL.String` percent-escapes
the bytes of the endpoint that a URL host cannot carry. -/
theorem dial_audience_is_escaped :
    Dial (controllerAt "[fe80::1%en0]:8083".toList) sampleCluster
        [("exporter-01".toList, { cancel := 7, stream := 7 })] 2
        { Uuid := "exporter-01".toList } =
      { listen := [("exporter-01".toList, { cancel := 7, stream := 7 })]
        ret := .ok { RouterEndpoint := "[fe80::1%en0]:8083".toList,
                     RouterToken := "signed-token".toList }
        trace :=
          [.tokenRequest
              { Namespace := nameSpace, Name := namePrefix ++ "tokenholder".toList,
                Audiences :=
                  ["https://[fe80::1%25en0]:8083/stream/7c9e6679-7425-40de-944b-e07fc1f90ae7".toList],
                ExpirationSeconds := 3600 },
            .send 7 { RouterEndpoint := "[fe80::1%en0]:8083".toList,
                      RouterToken := "signed-token".toList }] } ∧
    "https://[fe80::1%25en0]:8083/stream/7c9e6679-7425-40de-944b-e07fc1f90ae7".toList ≠
      "https://".toList ++ "[fe80::1%en0]:8083".toList ++ "/stream/".toList
        ++ "7c9e6679-7425-40de-944b-e07fc1f90ae7".toList ∧
    Dial (controllerAt "router.example.com/eu".toList) sampleCluster
        [("exporter-01".toList, { cancel := 7, stream := 7 })] 2
        { Uuid := "exporter-01".toList } =
      { listen := [("exporter-01".toList, { cancel := 7, stream := 7 })]
        ret := .ok { RouterEndpoint := "router.example.com/eu".toList,
                     RouterToken := "signed-token".toList }
        trace :=
          [.tokenRequest
              { Namespace := nameSpace, Name := namePrefix ++ "tokenholder".toList,
                Audiences :=
                  ["https://router.example.com%2Feu/stream/7c9e6679-7425-40de-944b-e07fc1f90ae7".toList],
                ExpirationSeconds := 3600 },
            .send 7 { RouterEndpoint := "router.example.com/eu".toList,
                      RouterToken := "signed-token".toList }] } := by
  decide

/-- C8 (amended): for every `Dial` call that returns success with a pair, the listen
registry holds an entry under the requested target id, the token oracle issued the
token for the request (tokenholder, expiry 3600 s) whose single audience is what
`URL.String` writes for the URL with scheme `https`, host `routerEndpoint` and path
`/stream/<streamId>`; the effects of the call are that token request followed by exactly
one `Send`, on the stream handle of that entry, of the message `(routerEndpoint,
token)`; and the pair returned to the caller is the same `(routerEndpoint, token)`. If
that `Send` fails, `Dial` returns the send error and no pair. The audience is the text
`https://<routerEndpoint>/stream/<streamId>` whenever the endpoint is a `host[:port]`
written without percent-escapes and the stream id consists of bytes that a path
carries unescaped (every UUID does). -/
theorem dial_identical_handoff (env : ControllerEnv) (cluster : Cluster)
    (listen : Registry listenContext) (ctx : Context) (req : DialRequest) :
    (∀ resp, (Dial env cluster listen ctx req).ret = .ok resp →
      ∃ value tokenholder token,
        listen.Load req.Uuid = some value ∧
        cluster.serviceAccounts
          { Namespace := nameSpace, Name := namePrefix ++ "tokenholder".toList }
          = some tokenholder ∧
        env.CreateToken tokenholder
          { Namespace := nameSpace, Name := namePrefix ++ "tokenholder".toList,
            Audiences :=
              [url.URL.String
                ({ Scheme := "https".toList, Host := env.routerEndpoint,
                   Path := "/stream/".toList ++ env.NewUUID } : url.URL)],
            ExpirationSeconds := 3600 } = .ok token ∧
        (Dial env cluster listen ctx req).trace =
          [.tokenRequest
              { Namespace := nameSpace, Name := namePrefix ++ "tokenholder".toList,
                Audiences :=
                  [url.URL.String
                    ({ Scheme := "https".toList, Host := env.routerEndpoint,
                       Path := "/stream/".toList ++ env.NewUUID } : url.URL)],
                ExpirationSeconds := 3600 },
            .send value.stream { RouterEndpoint := env.routerEndpoint, RouterToken := token }] ∧
        resp = { RouterEndpoint := env.routerEndpoint, RouterToken := token } ∧
        (Dial env cluster listen ctx req).listen = listen) ∧
    (∀ identity value tokenholder token err,
      authenticateIdentity env cluster ctx = .ok identity →
      listen.Load req.Uuid = some value →
      cluster.serviceAccounts
        { Namespace := nameSpace, Name := namePrefix ++ "tokenholder".toList }
        = some tokenholder →
      env.CreateToken tokenholder
        { Namespace := nameSpace, Name := namePrefix ++ "tokenholder".toList,
          Audiences :=
            [url.URL.String
              ({ Scheme := "https".toList, Host := env.routerEndpoint,
                 Path := "/stream/".toList ++ env.NewUUID } : url.URL)],
          ExpirationSeconds := 3600 } = .ok token →
      env.Send value.stream { RouterEndpoint := env.routerEndpoint, RouterToken := token }
        = some err →
      (Dial env cluster listen ctx req).ret = .error err) ∧
    (isHostPort env.routerEndpoint = true → env.NewUUID.all pathByte = true →
      url.URL.String
        ({ Scheme := "https".toList, Host := env.routerEndpoint,
           Path := "/stream/".toList ++ env.NewUUID } : url.URL) =
        "https://".toList ++ env.routerEndpoint ++ "/stream/".toList ++ env.NewUUID) :=
  ⟨fun resp hret => Dial_ok env cluster listen ctx req resp hret,
    fun identity value tokenholder token err hauth hload hsa htok hsend =>
      Dial_send_error env cluster listen ctx req identity value tokenholder token err
        hauth hload hsa htok hsend,
    fun hh hs => url.String_local env.routerEndpoint env.NewUUID hh (List.all_eq_true.1 hs)⟩

/-- Witness of `dial_identical_handoff`: the sample client dials the listening sample
exporter, once with a working `Listen` stream and once with one whose `Send` fails. -/
theorem dial_identical_handoff_witness :
    (Dial sampleController sampleCluster
        [("exporter-01".toList, { cancel := 7, stream := 7 })] 2
        { Uuid := "exporter-01".toList }).ret =
      .ok { RouterEndpoint := "router.example.com:8083".toList,
            RouterToken := "signed-token".toList } ∧
    (∃ value tokenholder token,
      Registry.Load [("exporter-01".toList, ({ cancel := 7, stream := 7 } : listenContext))]
        "exporter-01".toList = some value ∧
      sampleCluster.serviceAccounts
        { Namespace := nameSpace, Name := namePrefix ++ "tokenholder".toList }
        = some tokenholder ∧
      sampleController.CreateToken tokenholder
        { Namespace := nameSpace, Name := namePrefix ++ "tokenholder".toList,
          Audiences :=
            [url.URL.String
              ({ Scheme := "https".toList, Host := sampleController.routerEndpoint,
                 Path := "/stream/".toList ++ sampleController.NewUUID } : url.URL)],
          ExpirationSeconds := 3600 } = .ok token ∧
      (Dial sampleController sampleCluster
        [("exporter-01".toList, { cancel := 7, stream := 7 })] 2
        { Uuid := "exporter-01".toList }).trace =
        [.tokenRequest
            { Namespace := nameSpace, Name := namePrefix ++ "tokenholder".toList,
              Audiences :=
                [url.URL.String
                  ({ Scheme := "https".toList, Host := sampleController.routerEndpoint,
                     Path := "/stream/".toList ++ sampleController.NewUUID } : url.URL)],
              ExpirationSeconds := 3600 },
          .send value.stream
            { RouterEndpoint := sampleController.routerEndpoint, RouterToken := token }] ∧
      ({ RouterEndpoint := "router.example.com:8083".toList,
         RouterToken := "signed-token".toList } : DialResponse) =
        { RouterEndpoint := sampleController.routerEndpoint, RouterToken := token } ∧
      (Dial sampleController sampleCluster
        [("exporter-01".toList, { cancel := 7, stream := 7 })] 2
        { Uuid := "exporter-01".toList }).listen =
        [("exporter-01".toList, { cancel := 7, stream := 7 })]) ∧
    (Dial brokenPipeController sampleCluster
        [("exporter-01".toList, { cancel := 7, stream := 7 })] 2
        { Uuid := "exporter-01".toList }).ret = .error (Errorf .Unknown "broken pipe") ∧
    url.URL.String
        ({ Scheme := "https".toList, Host := sampleController.routerEndpoint,
           Path := "/stream/".toList ++ sampleController.NewUUID } : url.URL) =
      "https://".toList ++ sampleController.routerEndpoint ++ "/stream/".toList
        ++ sampleController.NewUUID :=
  ⟨by decide,
    (dial_identical_handoff sampleController sampleCluster
      [("exporter-01".toList, { cancel := 7, stream := 7 })] 2
      { Uuid := "exporter-01".toList }).1 _ (by decide),
    (dial_identical_handoff brokenPipeController sampleCluster
      [("exporter-01".toList, { cancel := 7, stream := 7 })] 2
      { Uuid := "exporter-01".toList }).2.1
      { Namespace := "default".toList, Name := "client-01".toList,
        Credentials := [{ Namespace := "default".toList, Name := "exporter-secret".toList },
          { Namespace := "default".toList, Name := "client-secret".toList }] }
      { cancel := 7, stream := 7 }
      { Namespace := nameSpace, Name := namePrefix ++ "tokenholder".toList }
      "signed-token".toList (Errorf .Unknown "broken pipe")
      (by decide) (by decide) (by decide) (by decide) (by decide),
    (dial_identical_handoff sampleController sampleCluster
      [("exporter-01".toList, { cancel := 7, stream := 7 })] 2
      { Uuid := "exporter-01".toList }).2.2 (by decide) (by decide)⟩

/-- C9: a `Register` or `Unregister` call whose exporter authentication fails returns
that authentication error with an empty effect trace (`Status().Update` is not invoked)
and leaves the directory, with every stored exporter status, as it was; a `Listen`
call whose exporter authentication fails, and a `Dial` call whose identity
authentication fails, return that error with an empty effect trace and the listen
registry unchanged. -/
theorem auth_atomicity (env : ControllerEnv) (cluster : Cluster) (ctx : Context)
    (err : GoError) :
    (authenticateExporter env cluster ctx = .error err →
      (∀ req, (Register env cluster ctx req).err = some err ∧
        (Register env cluster ctx req).trace = [] ∧
        (Register env cluster ctx req).cluster = cluster) ∧
      (∀ req, (Unregister env cluster ctx req).err = some err ∧
        (Unregister env cluster ctx req).trace = [] ∧
        (Unregister env cluster ctx req).cluster = cluster) ∧
      (∀ listen call, call.ctx = ctx →
        Listen env cluster listen call =
          { listen := listen, ret := .returned (some err), trace := [] })) ∧
    (authenticateIdentity env cluster ctx = .error err →
      ∀ listen req, Dial env cluster listen ctx req =
        { listen := listen, ret := .error err, trace := [] }) := by
  refine ⟨fun hauth => ⟨?_, ?_, ?_⟩, ?_⟩
  · intro req
    unfold Register
    simp only [hauth, and_self]
  · intro req
    unfold Unregister
    simp only [hauth, and_self]
  · intro listen call hctx
    subst hctx
    unfold Listen
    simp only [hauth]
  · intro hauth listen req
    unfold Dial
    simp only [hauth]

theorem matchCredentials_error (cluster : Cluster) (token : GoString)
    (refs : List NamespacedName) (e : GoError)
    (hm : matchCredentials cluster token refs = .error e) :
    e = Errorf .Internal "unable to get secret resource" := by
  induction refs with
  | nil => cases hm
  | cons ref refs ih =>
    unfold matchCredentials at hm
    split at hm
    · simp only [Except.error.injEq] at hm
      exact hm.symm
    · split at hm
      · split at hm
        · cases hm
        · exact ih hm
      · exact ih hm

/-- The ways in which `authenticateExporter` fails: a malformed credential (the error of
`authenticatePre`), a failed lookup of the principal, a failed read of a secret, or no
matching credential. -/
theorem authenticateExporter_error (env : ControllerEnv) (cluster : Cluster) (ctx : Context)
    (err : GoError) (h : authenticateExporter env cluster ctx = .error err) :
    authenticatePre env ctx = .error err ∨
    err = Errorf .Internal "unable to get exporter resource" ∨
    err = Errorf .Internal "unable to get secret resource" ∨
    err = Errorf .Unauthenticated "no matching credential" := by
  unfold authenticateExporter at h
  cases hpre : authenticatePre env ctx with
  | error e =>
    simp only [hpre, Except.error.injEq] at h
    exact Or.inl (by rw [h])
  | ok token =>
    simp only [hpre] at h
    cases hget : cluster.exporters { Namespace := token.Namespace, Name := token.Name } with
    | none =>
      simp only [hget, Except.error.injEq] at h
      exact Or.inr (Or.inl h.symm)
    | some exporter =>
      simp only [hget] at h
      cases hm : matchCredentials cluster token.Token exporter.Credentials with
      | error e =>
        simp only [hm, Except.error.injEq] at h
        subst h
        exact Or.inr (Or.inr (Or.inl (matchCredentials_error cluster token.Token _ e hm)))
      | ok b =>
        cases b with
        | true => simp only [hm, reduceCtorEq] at h
        | false =>
          simp only [hm, Except.error.injEq] at h
          exact Or.inr (Or.inr (Or.inr h.symm))

/-- Witness of `auth_atomicity`: a `Register` request without a bearer token at the sample
controller, and a `Dial` request without one. -/
theorem auth_atomicity_witness :
    authenticateExporter sampleController sampleCluster 3 =
      .error (Errorf .Unauthenticated "missing bearer token") ∧
    ((Register sampleController sampleCluster 3 { Reports := [] }).err =
        some (Errorf .Unauthenticated "missing bearer token") ∧
      (Register sampleController sampleCluster 3 { Reports := [] }).trace = [] ∧
      (Register sampleController sampleCluster 3 { Reports := [] }).cluster = sampleCluster) ∧
    Dial sampleController sampleCluster
        [("exporter-01".toList, { cancel := 7, stream := 7 })] 3
        { Uuid := "exporter-01".toList } =
      { listen := [("exporter-01".toList, { cancel := 7, stream := 7 })]
        ret := .error (Errorf .Unauthenticated "missing bearer token")
        trace := [] } :=
  ⟨by decide,
    ((auth_atomicity sampleController sampleCluster 3
      (Errorf .Unauthenticated "missing bearer token")).1 (by decide)).1 { Reports := [] },
    (auth_atomicity sampleController sampleCluster 3
      (Errorf .Unauthenticated "missing bearer token")).2 (by decide) _ _⟩

/-- C11: the listen registry is keyed by the exporter's name alone. For every two
authenticated exporter principals with different namespaces and the same name `n`, and
every listen registry without an entry for `n`: the `Listen` call of the one that comes
first installs its entry under `n` and blocks; while that entry is present the `Listen`
call of the other returns the `AlreadyExists` error and leaves the registry as it is;
and a `Dial` whose target id is `n` (by an authenticated client, with the tokenholder
found and a token issued) sends its `(routerEndpoint, token)` message on the stream
handle of the call that installed the entry, whatever the namespaces; no `Dial` with
that target id sends on any other stream handle. -/
theorem listen_registry_keyed_by_name (env : ControllerEnv) (cluster : Cluster)
    (listen : Registry listenContext) (first second : ListenCall) (e1 e2 : Exporter)
    (n : GoString) (hns : e1.Namespace ≠ e2.Namespace) (hn1 : e1.Name = n) (hn2 : e2.Name = n)
    (hauth1 : authenticateExporter env cluster first.ctx = .ok e1)
    (hauth2 : authenticateExporter env cluster second.ctx = .ok e2)
    (hfree : listen.Load n = none) :
    e1.Namespace ≠ e2.Namespace ∧
    Listen env cluster listen first =
      { listen := listen ++ [(n, { cancel := first.cancel, stream := first.stream })]
        ret := .blocked
        trace := [] } ∧
    Listen env cluster
        (listen ++ [(n, { cancel := first.cancel, stream := first.stream })]) second =
      { listen := listen ++ [(n, { cancel := first.cancel, stream := first.stream })]
        ret := .returned (some (Errorf .AlreadyExists "exporter is already listening"))
        trace := [.cancel second.cancel] } ∧
    (∀ ctx req identity tokenholder token,
      req.Uuid = n →
      authenticateIdentity env cluster ctx = .ok identity →
      cluster.serviceAccounts
        { Namespace := nameSpace, Name := namePrefix ++ "tokenholder".toList }
        = some tokenholder →
      env.CreateToken tokenholder
        (tokenRequestFor (dialAudience env.routerEndpoint env.NewUUID)) = .ok token →
      (Dial env cluster
        (listen ++ [(n, { cancel := first.cancel, stream := first.stream })]) ctx req).trace =
        [.tokenRequest (tokenRequestFor (dialAudience env.routerEndpoint env.NewUUID)),
          .send first.stream { RouterEndpoint := env.routerEndpoint, RouterToken := token }]) ∧
    (∀ ctx req stream msg,
      req.Uuid = n →
      Effect.send stream msg ∈ (Dial env cluster
        (listen ++ [(n, { cancel := first.cancel, stream := first.stream })]) ctx req).trace →
      stream = first.stream) := by
  subst hn1
  have hstored : Registry.Load
      (listen ++ [(e1.Name, ({ cancel := first.cancel, stream := first.stream } : listenContext))])
      e1.Name = some { cancel := first.cancel, stream := first.stream } :=
    lookup_append_self listen e1.Name _ hfree
  refine ⟨hns, ?_, ?_, ?_, ?_⟩
  · unfold Listen
    simp only [Registry.Load] at hfree
    simp only [hauth1, Registry.LoadOrStore, hfree]
  · unfold Listen
    simp only [Registry.Load] at hstored
    simp only [hauth2, Registry.LoadOrStore, hn2, hstored]
  · intro ctx req identity tokenholder token hreq hauth hsa htok
    unfold Dial
    simp only [hauth, hreq, hstored, hsa, htok]
    cases hsend : env.Send first.stream
        { RouterEndpoint := env.routerEndpoint, RouterToken := token } <;> rfl
  · intro ctx req stream msg hreq hmem
    unfold Dial at hmem
    simp only [hreq, hstored] at hmem
    cases hauth : authenticateIdentity env cluster ctx with
    | error err => simp only [hauth, List.not_mem_nil] at hmem
    | ok identity =>
      cases hsa : cluster.serviceAccounts
          { Namespace := nameSpace, Name := namePrefix ++ "tokenholder".toList } with
      | none => simp only [hauth, hsa, List.not_mem_nil] at hmem
      | some tokenholder =>
        cases htok : env.CreateToken tokenholder
            (tokenRequestFor (dialAudience env.routerEndpoint env.NewUUID)) with
        | error err =>
          simp only [hauth, hsa, htok, List.mem_singleton, reduceCtorEq] at hmem
        | ok token =>
          cases hsend : env.Send first.stream
              { RouterEndpoint := env.routerEndpoint, RouterToken := token } <;>
            simp only [hauth, hsa, htok, hsend, List.mem_cons, reduceCtorEq, false_or,
              Effect.send.injEq, List.mem_singleton, List.not_mem_nil, or_false] at hmem <;>
            exact hmem.1

/-- Witness of `listen_registry_keyed_by_name`: `default/exporter-01` listens first on
stream handle 7, `lab/exporter-01` is rejected, and the sample client's `Dial` of
`exporter-01` sends on stream handle 7. -/
theorem listen_registry_keyed_by_name_witness :
    Listen twoNamespaceController twoNamespaceCluster []
        { stream := 7, ctx := 1, cancel := 7 } =
      { listen := [("exporter-01".toList, { cancel := 7, stream := 7 })]
        ret := .blocked
        trace := [] } ∧
    Listen twoNamespaceController twoNamespaceCluster
        [("exporter-01".toList, { cancel := 7, stream := 7 })]
        { stream := 8, ctx := 4, cancel := 8 } =
      { listen := [("exporter-01".toList, { cancel := 7, stream := 7 })]
        ret := .returned (some (Errorf .AlreadyExists "exporter is already listening"))
        trace := [.cancel 8] } ∧
    (Dial twoNamespaceController twoNamespaceCluster
        [("exporter-01".toList, { cancel := 7, stream := 7 })] 2
        { Uuid := "exporter-01".toList }).trace =
      [.tokenRequest
          (tokenRequestFor
            (dialAudience twoNamespaceController.routerEndpoint twoNamespaceController.NewUUID)),
        .send 7 { RouterEndpoint := twoNamespaceController.routerEndpoint,
                  RouterToken := "signed-token".toList }] :=
  have h := listen_registry_keyed_by_name twoNamespaceController twoNamespaceCluster []
    { stream := 7, ctx := 1, cancel := 7 } { stream := 8, ctx := 4, cancel := 8 }
    { Namespace := "default".toList, Name := "exporter-01".toList, Generation := 1,
      Credentials := [{ Namespace := "default".toList, Name := "exporter-secret".toList },
        { Namespace := "default".toList, Name := "client-secret".toList }],
      Status := { Conditions := [], Devices := [] } }
    { Namespace := "lab".toList, Name := "exporter-01".toList, Generation := 1,
      Credentials := [{ Namespace := "default".toList, Name := "exporter-secret".toList }],
      Status := { Conditions := [], Devices := [] } }
    "exporter-01".toList (by decide) rfl rfl (by decide) (by decide) (by decide)
  ⟨h.2.1, h.2.2.1,
    h.2.2.2.1 2 { Uuid := "exporter-01".toList }
      { Namespace := "default".toList, Name := "client-01".toList,
        Credentials := [{ Namespace := "default".toList, Name := "exporter-secret".toList },
          { Namespace := "default".toList, Name := "client-secret".toList }] }
      { Namespace := nameSpace, Name := namePrefix ++ "tokenholder".toList }
      "signed-token".toList rfl (by decide) (by decide) (by decide)⟩

end Jumpstarter
